import Mathlib

/-!
Verification of the email-OTP authentication core of riv-mvp: the Redis-backed
key-value layer with in-memory fallback (`src/lib/redis.ts`), the OTP service
(`src/lib/otp.ts`), the JWT token service (`src/lib/auth.ts`), the session
service (`src/lib/session.ts`) and the rate limiter (`src/lib/rate-limiter.ts`).

Timestamps are integers in milliseconds (`Date.now()`) unless a definition
says otherwise; the rate limiter works in whole seconds
(`Math.floor(Date.now() / 1000)`, embedded as `Int.fdiv · 1000`).
Each operation that performs a remote (Redis) call takes a Bool argument
telling whether that remote call throws; this is the failure-injection point
for the degradation behaviour the source implements in its `catch` blocks.
-/

namespace RivMvp

/-- Association-list update: store `v` under `k`, removing any previous binding. -/
def setA {α : Type} (s : List (String × α)) (k : String) (v : α) : List (String × α) :=
  (k, v) :: s.filter fun p => p.1 != k

/-- Association-list removal of every binding of `k`. -/
def delA {α : Type} (s : List (String × α)) (k : String) : List (String × α) :=
  s.filter fun p => p.1 != k

/-- CacheEntry from `redis.ts`: `{ value: string, expiresAt: number }`. -/
structure CacheEntry where
  value : String
  expiresAt : Int
deriving DecidableEq

/-- Contents of one key-value backend: an association list of cache entries. -/
abbrev Store := List (String × CacheEntry)

def lookupKey (s : Store) (k : String) : Option CacheEntry :=
  List.lookup k s

/-- Modelled from the spec: GET on the external Redis server (not repository
code). A key written with `setEx` lives for its TTL and is gone once the TTL
has elapsed: alive iff `now < expiresAt`. -/
def remoteGet (s : Store) (key : String) (now : Int) : Option String :=
  match lookupKey s key with
  | none => none
  | some e => if now < e.expiresAt then some e.value else none

/-- Modelled from the spec: `SETEX key ttl value` on the external Redis server. -/
def remoteSetEx (s : Store) (key value : String) (ttlSeconds now : Int) : Store :=
  setA s key ⟨value, now + ttlSeconds * 1000⟩

/-- Modelled from the spec: `DEL key` on the external Redis server. -/
def remoteDel (s : Store) (key : String) : Store :=
  delA s key

/-- State of the `RedisService` singleton from `redis.ts`: the availability
flag, the external Redis server contents (modelled), and the in-memory
fallback map.  `client` is non-null exactly when the flag can be true, so the
source's `this.isRedisAvailable && this.client` guard is embedded as a test of
the flag alone. -/
structure RedisService where
  isRedisAvailable : Bool
  remote : Store
  memoryCache : Store
deriving DecidableEq

/-- Memory-fallback read (`redis.ts` lines 444-453): a hit whose entry has
expired (`Date.now() > entry.expiresAt`) is deleted and reported as `null`. -/
def memGet (st : RedisService) (key : String) (now : Int) :
    Option String × RedisService :=
  match lookupKey st.memoryCache key with
  | none => (none, st)
  | some entry =>
    if now > entry.expiresAt then
      (none, { st with memoryCache := delA st.memoryCache key })
    else
      (some entry.value, st)

/-- `RedisService.get`: try the remote backend when available; on a remote
failure log, flip the flag to false and fall back to memory. -/
def RedisService.get (st : RedisService) (key : String) (now : Int)
    (remoteFails : Bool) : Option String × RedisService :=
  if st.isRedisAvailable then
    if remoteFails then
      memGet { st with isRedisAvailable := false } key now
    else
      (remoteGet st.remote key now, st)
  else
    memGet st key now

/-- `RedisService.set`: `setEx` on the remote backend when available; on a
remote failure flip the flag and write the memory cache with
`expiresAt = Date.now() + expirySeconds * 1000`. -/
def RedisService.set (st : RedisService) (key value : String)
    (expirySeconds now : Int) (remoteFails : Bool) : RedisService :=
  if st.isRedisAvailable then
    if remoteFails then
      { st with isRedisAvailable := false,
                memoryCache := setA st.memoryCache key ⟨value, now + expirySeconds * 1000⟩ }
    else
      { st with remote := remoteSetEx st.remote key value expirySeconds now }
  else
    { st with memoryCache := setA st.memoryCache key ⟨value, now + expirySeconds * 1000⟩ }

/-- `RedisService.delete`: `del` on the remote backend when available; a remote
failure is only logged — the availability flag is NOT flipped in this catch
block (unlike `get`/`set`/`scanKeys`).  The memory-cache deletion runs
unconditionally after the remote attempt. -/
def RedisService.delete (st : RedisService) (key : String)
    (remoteFails : Bool) : RedisService :=
  let st1 :=
    if st.isRedisAvailable then
      if remoteFails then st
      else { st with remote := remoteDel st.remote key }
    else st
  { st1 with memoryCache := delA st1.memoryCache key }

def RedisService.isConnected (st : RedisService) : Bool :=
  st.isRedisAvailable

/-- Modelled from the spec: whole-key glob matching as performed by the remote
backend's `SCAN ... MATCH pattern` (not repository code): each `*` matches any
character sequence, every other character matches itself only, and the whole
key must be consumed.  Fuel-based so that the kernel can evaluate it; fuel
`p.length + s.length + 1` always suffices because every recursive call
shrinks `p.length + s.length`. -/
def globMatchAux : Nat → List Char → List Char → Bool
  | 0, _, _ => false
  | fuel + 1, p, s =>
    match p with
    | [] => s.isEmpty
    | q :: ps =>
      if q = '*' then
        match s with
        | [] => globMatchAux fuel ps []
        | _ :: ss => globMatchAux fuel ps s || globMatchAux fuel p ss
      else
        match s with
        | [] => false
        | c :: ss => q == c && globMatchAux fuel ps ss

def globMatch (pattern key : String) : Bool :=
  globMatchAux (pattern.data.length + key.data.length + 1) pattern.data key.data

/-- True for the characters that JavaScript's regex `.` matches: everything
except the line terminators `\n`, `\r`, U+2028 and U+2029. -/
def jsDot (c : Char) : Bool :=
  c != '\n' && c != '\r' && c != '\u2028' && c != '\u2029'

/-- Whole-string match of the regex obtained from a glob pattern by the
source's translation `pattern.replace(/\*/g, '.*')`, for patterns whose
non-`*` characters are regex literals: `*` becomes `.*` (any sequence of
non-line-terminator characters), everything else matches itself. -/
def rexMatchAux : Nat → List Char → List Char → Bool
  | 0, _, _ => false
  | fuel + 1, p, s =>
    match p with
    | [] => s.isEmpty
    | q :: ps =>
      if q = '*' then
        match s with
        | [] => rexMatchAux fuel ps []
        | c :: ss => rexMatchAux fuel ps s || (jsDot c && rexMatchAux fuel p ss)
      else
        match s with
        | [] => false
        | c :: ss => q == c && rexMatchAux fuel ps ss

/-- `new RegExp(pattern.replace(/\*/g, '.*')).test(key)` from the memory
branch of `scanKeys` (`redis.ts` line 537): `RegExp.test` is an UNANCHORED
search, so it succeeds iff some contiguous substring of the key matches the
translated pattern.  Faithful for patterns whose non-`*` characters are regex
literals (the `safePattern` predicate below). -/
def memRegexTest (pattern key : String) : Bool :=
  key.data.tails.any fun suf =>
    suf.inits.any fun t =>
      rexMatchAux (pattern.data.length + t.length + 1) pattern.data t

/-- Characters that stand for themselves in a JavaScript regex and are not
line terminators: letters, digits, `:`, `_`, `-`, `@`. -/
def plainChar (c : Char) : Bool :=
  c.isAlphanum || c == ':' || c == '_' || c == '-' || c == '@'

/-- Glob patterns whose translation to a regex is literal apart from `*`. -/
def safePattern (p : String) : Bool :=
  p.data.all fun c => c == '*' || plainChar c

def safeKey (k : String) : Bool :=
  k.data.all plainChar

/-- Memory branch of `scanKeys` (`redis.ts` lines 535-549): collect the keys
whose regex test succeeds and whose entry is still valid
(`Date.now() <= entry.expiresAt` — note the inclusive comparison, and no
deletion of expired entries here). -/
def memScanKeys (mem : Store) (pattern : String) (now : Int) : List String :=
  (mem.filter fun p => memRegexTest pattern p.1 && now ≤ p.2.expiresAt).map Prod.fst

/-- Modelled from the spec: cursor-based `SCAN ... MATCH` on the external
Redis server, accumulating every live key that whole-key glob-matches. -/
def remoteScanKeys (s : Store) (pattern : String) (now : Int) : List String :=
  (s.filter fun p => globMatch pattern p.1 && now < p.2.expiresAt).map Prod.fst

/-- `RedisService.scanKeys`: remote cursor scan when available; on a remote
failure flip the flag and scan the memory cache. -/
def RedisService.scanKeys (st : RedisService) (pattern : String) (now : Int)
    (remoteFails : Bool) : List String × RedisService :=
  if st.isRedisAvailable then
    if remoteFails then
      (memScanKeys st.memoryCache pattern now, { st with isRedisAvailable := false })
    else
      (remoteScanKeys st.remote pattern now, st)
  else
    (memScanKeys st.memoryCache pattern now, st)

/-- Decimal digits of `n`, most significant first; fuel-based so the kernel
can evaluate it (`fuel > n` suffices). -/
def natDigitsAux : Nat → Nat → List Char
  | 0, _ => []
  | fuel + 1, n =>
    if n < 10 then [Nat.digitChar n]
    else natDigitsAux fuel (n / 10) ++ [Nat.digitChar (n % 10)]

/-- `Number.prototype.toString` for the counter values the rate limiter
stores (nonnegative integers). -/
def natToString10 (n : Nat) : String :=
  ⟨natDigitsAux (n + 1) n⟩

def isDigitChar (c : Char) : Bool :=
  '0' ≤ c && c ≤ '9'

def digitVal (c : Char) : Nat :=
  c.toNat - 48

/-- JavaScript `parseInt` restricted to the shapes this service produces:
parses the longest leading run of decimal digits, `none` (= `NaN`) if there
is none.  (The sign/whitespace/radix features of `parseInt` are never
exercised by the rate limiter, which only reads back its own `toString`
output.) -/
def parseIntJS (s : String) : Option Nat :=
  let ds := s.data.takeWhile isDigitChar
  if ds.isEmpty then none
  else some (ds.foldl (fun a c => a * 10 + digitVal c) 0)

/-- Result record of `checkRateLimit` (`rate-limiter.ts`).  `remaining` is an
`Option Int` because JavaScript arithmetic on a failed `parseInt` produces
`NaN` (modelled as `none`); every value this development proves something
about is a proper integer `some r`. -/
structure RateLimitResult where
  allowed : Bool
  remaining : Option Int
  resetTime : Int
  error : Option String
deriving DecidableEq

/-- `RateLimitConfig` (`rate-limiter.ts`); `keyPref` embeds the source's key
prefix field, defaulting to `"rate_limit:"`. -/
structure RateLimitConfig where
  maxRequests : Nat
  windowSeconds : Nat
  keyPref : String
deriving DecidableEq

/-- One `{count, resetTime}` entry of the in-memory rate-limit store. -/
structure MemEntry where
  count : Nat
  resetTime : Int
deriving DecidableEq

/-- State of the `RateLimiterService` singleton: its private `memoryStore`. -/
structure RateLimiterService where
  memoryStore : List (String × MemEntry)
deriving DecidableEq

/-- Whole-application state the rate limiter touches: the shared
`redisService` and the limiter's own memory store. -/
structure AppState where
  redis : RedisService
  limiter : RateLimiterService
deriving DecidableEq

/-- `checkMemoryRateLimit` (`rate-limiter.ts` lines 146-185).  `now` is in
whole seconds.  A missing entry, or one whose window has expired
(`now > stored.resetTime`), is replaced by `{count: 1, resetTime: now +
windowSeconds}` and the call is allowed regardless of `maxRequests`. -/
def checkMemoryRateLimit (rl : RateLimiterService) (key : String)
    (cfg : RateLimitConfig) (now : Int) : RateLimitResult × RateLimiterService :=
  let fresh : RateLimitResult × RateLimiterService :=
    ({ allowed := true,
       remaining := some ((cfg.maxRequests : Int) - 1),
       resetTime := now + cfg.windowSeconds,
       error := none },
     { memoryStore := setA rl.memoryStore key ⟨1, now + cfg.windowSeconds⟩ })
  match List.lookup key rl.memoryStore with
  | none => fresh
  | some stored =>
    if now > stored.resetTime then fresh
    else if stored.count ≥ cfg.maxRequests then
      ({ allowed := false, remaining := some 0, resetTime := stored.resetTime,
         error := some "Rate limit exceeded" }, rl)
    else
      ({ allowed := true,
         remaining := some ((cfg.maxRequests : Int) - (stored.count + 1)),
         resetTime := stored.resetTime, error := none },
       { memoryStore := setA rl.memoryStore key ⟨stored.count + 1, stored.resetTime⟩ })

/-- The source's `getRedisTTL` stub (`rate-limiter.ts` lines 190-194): always
`null`. -/
def getRedisTTL (_key : String) : Option Int :=
  none

/-- `checkRedisRateLimit` (`rate-limiter.ts` lines 108-141).  `nowSec` is the
limiter's whole-second clock, `nowMs` the millisecond clock the underlying
`redisService` sees.  `currentCount ? parseInt(currentCount) : 0` maps a
missing or empty value to `0`; a `parseInt` failure is JavaScript `NaN`,
which fails the `count >= max` comparison, so the request is allowed and the
stored counter becomes the string `"NaN"`. -/
def checkRedisRateLimit (st : RedisService) (key : String)
    (cfg : RateLimitConfig) (nowSec nowMs : Int) (getFails setFails : Bool) :
    RateLimitResult × RedisService :=
  let r := st.get key nowMs getFails
  let st' := r.2
  let countNum : Option Nat :=
    match r.1 with
    | none => some 0
    | some s => if s == "" then some 0 else parseIntJS s
  match countNum with
  | some count =>
    if count ≥ cfg.maxRequests then
      ({ allowed := false, remaining := some 0,
         resetTime := nowSec + ((getRedisTTL key).getD cfg.windowSeconds),
         error := some "Rate limit exceeded" }, st')
    else
      ({ allowed := true,
         remaining := some ((cfg.maxRequests : Int) - (count + 1)),
         resetTime := nowSec + cfg.windowSeconds, error := none },
       st'.set key (natToString10 (count + 1)) cfg.windowSeconds nowMs setFails)
  | none =>
      ({ allowed := true, remaining := none,
         resetTime := nowSec + cfg.windowSeconds, error := none },
       st'.set key "NaN" cfg.windowSeconds nowMs setFails)

/-- `checkRateLimit` (`rate-limiter.ts` lines 68-103).  `thrown` injects "some
error was thrown inside the guarded block": the `catch` then fails open,
returning `allowed: true` with the full quota and propagating nothing.
Otherwise the call dispatches on `redisService.isConnected()`. -/
def checkRateLimit (app : AppState) (identifier operation : String)
    (cfg : RateLimitConfig) (nowMs : Int) (thrown getFails setFails : Bool) :
    RateLimitResult × AppState :=
  let key := cfg.keyPref ++ operation ++ ":" ++ identifier
  let nowSec := nowMs.fdiv 1000
  if thrown then
    ({ allowed := true, remaining := some (cfg.maxRequests : Int),
       resetTime := nowSec + cfg.windowSeconds, error := none }, app)
  else if app.redis.isConnected then
    let r := checkRedisRateLimit app.redis key cfg nowSec nowMs getFails setFails
    (r.1, { app with redis := r.2 })
  else
    let r := checkMemoryRateLimit app.limiter key cfg nowSec
    (r.1, { app with limiter := r.2 })

/-- Key layout of the OTP service (`otp.ts`): `` `${OTP_PREFIX}${identifier}` ``
with the default prefix `otp:`. -/
def otpKey (identifier : String) : String :=
  "otp:" ++ identifier

/-- `storeOTP` (`otp.ts` lines 62-79): write the code under the OTP key with
the configured TTL.  `redisService.set` swallows remote failures, so the
service-level catch (`throw new Error('Failed to store OTP')`) is
unreachable and the embedding returns the new state directly. -/
def storeOTP (st : RedisService) (identifier otp : String)
    (otpExpirySeconds now : Int) (setFails : Bool) : RedisService :=
  st.set (otpKey identifier) otp otpExpirySeconds now setFails

/-- `verifyOTP` (`otp.ts` lines 87-116): read the stored code; a missing (or
JavaScript-falsy, i.e. empty) value fails; an exact string match deletes the
record (one-time use) and returns true; a mismatch changes nothing and
returns false. -/
def verifyOTP (st : RedisService) (identifier otp : String) (now : Int)
    (getFails delFails : Bool) : Bool × RedisService :=
  let r := st.get (otpKey identifier) now getFails
  match r.1 with
  | none => (false, r.2)
  | some stored =>
    if stored == "" then (false, r.2)
    else if stored == otp then
      (true, r.2.delete (otpKey identifier) delFails)
    else
      (false, r.2)

/-- `deleteOTP` (`otp.ts` lines 122-125). -/
def deleteOTP (st : RedisService) (identifier : String) (delFails : Bool) :
    RedisService :=
  st.delete (otpKey identifier) delFails

/-- `SessionData` (`session.ts`). -/
structure SessionData where
  userId : String
  email : String
  createdAt : Int
  lastAccessed : Int
  userAgent : Option String
  ipAddress : Option String
deriving DecidableEq

/-- Serialize one string, escaping every character so the field terminator
`\x02` is unambiguous. -/
def encStr (s : String) : List Char :=
  (s.data.flatMap fun c => ['\x01', c]) ++ ['\x02']

/-- Inverse of `encStr` on a longer stream; `acc` holds the characters read
so far, reversed. -/
def decStrAux : List Char → List Char → Option (String × List Char)
  | acc, '\x02' :: rest => some (⟨acc.reverse⟩, rest)
  | acc, '\x01' :: c :: rest => decStrAux (c :: acc) rest
  | _, _ => none

def decStr (l : List Char) : Option (String × List Char) :=
  decStrAux [] l

def encNat (n : Nat) : List Char :=
  List.replicate n '\x03' ++ ['\x02']

def decNat : List Char → Option (Nat × List Char)
  | '\x02' :: rest => some (0, rest)
  | '\x03' :: rest =>
    match decNat rest with
    | some (n, r) => some (n + 1, r)
    | none => none
  | _ => none

def encInt (i : Int) : List Char :=
  (if i < 0 then '-' else '+') :: encNat i.natAbs

def decInt (l : List Char) : Option (Int × List Char) :=
  match l with
  | '-' :: rest =>
    match decNat rest with
    | some (n, r) => some (-(n : Int), r)
    | none => none
  | '+' :: rest =>
    match decNat rest with
    | some (n, r) => some ((n : Int), r)
    | none => none
  | _ => none

def encOptStr (o : Option String) : List Char :=
  match o with
  | none => ['N']
  | some s => 'S' :: encStr s

def decOptStr (l : List Char) : Option (Option String × List Char) :=
  match l with
  | 'N' :: rest => some (none, rest)
  | 'S' :: rest =>
    match decStr rest with
    | some (s, r) => some (some s, r)
    | none => none
  | _ => none

/-- Modelled from the spec: `JSON.stringify` of a `SessionData` record.  The
session service relies only on `JSON.parse ∘ JSON.stringify = id` and on
`JSON.parse` rejecting other inputs, so serialization is embedded as an
injective encoding with the executable partial inverse `sessionParse`. -/
def sessionStringify (sd : SessionData) : String :=
  ⟨encStr sd.userId ++ encStr sd.email ++ encInt sd.createdAt ++
    encInt sd.lastAccessed ++ encOptStr sd.userAgent ++ encOptStr sd.ipAddress⟩

/-- Modelled from the spec: `JSON.parse` of a serialized `SessionData`;
`none` embeds a thrown `SyntaxError`. -/
def sessionParse (s : String) : Option SessionData :=
  match decStr s.data with
  | none => none
  | some (userId, r1) =>
    match decStr r1 with
    | none => none
    | some (email, r2) =>
      match decInt r2 with
      | none => none
      | some (createdAt, r3) =>
        match decInt r3 with
        | none => none
        | some (lastAccessed, r4) =>
          match decOptStr r4 with
          | none => none
          | some (userAgent, r5) =>
            match decOptStr r5 with
            | some (ipAddress, []) =>
              some ⟨userId, email, createdAt, lastAccessed, userAgent, ipAddress⟩
            | _ => none

/-- `SessionResult` (`session.ts`). -/
structure SessionResult where
  success : Bool
  session : Option SessionData
  error : Option String
deriving DecidableEq

/-- Key layout of the session service: `` `${SESSION_PREFIX}${sessionId}` ``
with the default prefix `session:`. -/
def sessionKey (sessionId : String) : String :=
  "session:" ++ sessionId

/-- `validateSession` (`session.ts` lines 131-168): a missing (or falsy)
value fails with "Session not found or expired"; a stored record gets its
`lastAccessed` set to `Date.now()` and is re-persisted with the full
configured TTL before success is returned; a `JSON.parse` failure is caught
and reported as "Session validation failed". -/
def validateSession (st : RedisService) (sessionId : String)
    (sessionExpirySeconds nowMs : Int) (getFails setFails : Bool) :
    SessionResult × RedisService :=
  let key := sessionKey sessionId
  let r := st.get key nowMs getFails
  match r.1 with
  | none =>
    ({ success := false, session := none,
       error := some "Session not found or expired" }, r.2)
  | some str =>
    if str == "" then
      ({ success := false, session := none,
         error := some "Session not found or expired" }, r.2)
    else
      match sessionParse str with
      | none =>
        ({ success := false, session := none,
           error := some "Session validation failed" }, r.2)
      | some sd =>
        let sd' := { sd with lastAccessed := nowMs }
        ({ success := true, session := some sd', error := none },
         r.2.set key (sessionStringify sd') sessionExpirySeconds nowMs setFails)

/-- The `type` claim of a token (`auth.ts`): `'access' | 'refresh'`. -/
inductive TokenType
  | access
  | refresh
deriving DecidableEq

/-- `JWTPayload` (`auth.ts`).  The `type` field is embedded as `ttype`.  In
the source a decoded payload could in principle lack `userId`/`email`/`type`
(the cast from `jwt.verify`); absence of the two strings is represented by
`""` (JavaScript-falsy), and `type` is always present in tokens this code
mints, which is all the structure check can see here. -/
structure JWTPayload where
  userId : String
  email : String
  iat : Option Int
  exp : Option Int
  ttype : TokenType
deriving DecidableEq

/-- Modelled from the spec: a token produced by the external `jsonwebtoken`
library.  Its signature is valid for exactly the secret it was signed with,
so a token is represented by its payload plus that secret. -/
structure SignedToken where
  payload : JWTPayload
  signedWith : String
deriving DecidableEq

/-- The distinguishable errors the token service throws. -/
inductive TokenError
  | configMissing
  | configShort
  | invalidToken
  | expired
  | notActive
  | invalidStructure
  | wrongTokenType
deriving DecidableEq

/-- Error messages from `auth.ts` / the claim-check branches. -/
def TokenError.message : TokenError → String
  | .configMissing => "JWT_SECRET is required but not found"
  | .configShort => "JWT_SECRET must be at least 32 characters long"
  | .invalidToken => "Invalid token"
  | .expired => "Token has expired"
  | .notActive => "Token not active yet"
  | .invalidStructure => "Invalid token structure"
  | .wrongTokenType => "Invalid token type"

def TokenError.isConfigError : TokenError → Bool
  | .configMissing => true
  | .configShort => true
  | _ => false

/-- `getJWTSecret` (`auth.ts` lines 42-54): the secret as returned by
`getSecretSync('JWT_SECRET')` (`Option String`); a missing or JS-falsy
(empty) secret is a fatal configuration error, as is one shorter than 32
characters. -/
def getJWTSecret (secretOpt : Option String) : Except TokenError String :=
  match secretOpt with
  | none => .error .configMissing
  | some s =>
    if s == "" then .error .configMissing
    else if s.length < 32 then .error .configShort
    else .ok s

/-- Modelled from the spec: `jwt.sign(payload, secret, {expiresIn})` — the
library stamps `iat = now` and `exp = now + expiresIn` (seconds). -/
def jwtSign (userId email : String) (t : TokenType) (secret : String)
    (expiresIn nowSec : Int) : SignedToken :=
  { payload := { userId := userId, email := email, iat := some nowSec,
                 exp := some (nowSec + expiresIn), ttype := t },
    signedWith := secret }

/-- Modelled from the spec: `jwt.verify(token, secret)` — rejects a signature
made with a different secret and an expired token (`now ≥ exp`). -/
def jwtVerify (t : SignedToken) (secret : String) (nowSec : Int) :
    Except TokenError JWTPayload :=
  if t.signedWith != secret then .error .invalidToken
  else
    match t.payload.exp with
    | some e => if nowSec ≥ e then .error .expired else .ok t.payload
    | none => .ok t.payload

/-- `createToken` (`auth.ts` lines 63-78). -/
def createToken (secretOpt : Option String) (userId email : String)
    (t : TokenType) (expiresIn nowSec : Int) : Except TokenError SignedToken :=
  match getJWTSecret secretOpt with
  | .error e => .error e
  | .ok secret => .ok (jwtSign userId email t secret expiresIn nowSec)

def ACCESS_TOKEN_EXPIRY : Int := 15 * 60

def REFRESH_TOKEN_EXPIRY : Int := 7 * 24 * 60 * 60

/-- `TokenPair` (`auth.ts`). -/
structure TokenPair where
  accessToken : SignedToken
  refreshToken : SignedToken
  expiresIn : Int
deriving DecidableEq

/-- `createTokenPair` (`auth.ts` lines 87-109): two tokens differing only in
`type` claim and TTL. -/
def createTokenPair (secretOpt : Option String) (userId email : String)
    (nowSec : Int) : Except TokenError TokenPair :=
  match createToken secretOpt userId email .access ACCESS_TOKEN_EXPIRY nowSec with
  | .error e => .error e
  | .ok a =>
    match createToken secretOpt userId email .refresh REFRESH_TOKEN_EXPIRY nowSec with
    | .error e => .error e
    | .ok r => .ok { accessToken := a, refreshToken := r, expiresIn := ACCESS_TOKEN_EXPIRY }

/-- `verifyToken` (`auth.ts` lines 117-148): library verification, then the
source's own structure check (`!decoded.userId || !decoded.email ||
!decoded.type`, i.e. empty strings are rejected) and its redundant manual
expiry check `decoded.exp < Math.floor(Date.now() / 1000)`. -/
def verifyToken (secretOpt : Option String) (t : SignedToken) (nowSec : Int) :
    Except TokenError JWTPayload :=
  match getJWTSecret secretOpt with
  | .error e => .error e
  | .ok secret =>
    match jwtVerify t secret nowSec with
    | .error e => .error e
    | .ok decoded =>
      if decoded.userId == "" || decoded.email == "" then .error .invalidStructure
      else
        match decoded.exp with
        | some e => if e < nowSec then .error .expired else .ok decoded
        | none => .ok decoded

/-- `AuthResult` (`auth.ts`); `user` is `(userId, email)`. -/
structure AuthResult where
  success : Bool
  user : Option (String × String)
  error : Option String
deriving DecidableEq

/-- `authenticateUser` (`auth.ts` lines 211-235): verification failure or a
non-access `type` claim yields `{success: false}`. -/
def authenticateUser (secretOpt : Option String) (t : SignedToken)
    (nowSec : Int) : AuthResult :=
  match verifyToken secretOpt t nowSec with
  | .error e => { success := false, user := none, error := some e.message }
  | .ok payload =>
    match payload.ttype with
    | .refresh =>
      { success := false, user := none,
        error := some "Invalid token type. Access token required." }
    | .access =>
      { success := true, user := some (payload.userId, payload.email), error := none }

/-- `refreshAccessToken` (`auth.ts` lines 243-255): requires a refresh-type
token and re-mints a pair for the same identity; everything else throws. -/
def refreshAccessToken (secretOpt : Option String) (t : SignedToken)
    (nowSec : Int) : Except TokenError TokenPair :=
  match verifyToken secretOpt t nowSec with
  | .error e => .error e
  | .ok payload =>
    match payload.ttype with
    | .access => .error .wrongTokenType
    | .refresh => createTokenPair secretOpt payload.userId payload.email nowSec

/-- State after `k` back-to-back `checkRateLimit` calls for one identifier,
operation, configuration and clock reading, with no injected failures. -/
def rlIter (identifier operation : String) (cfg : RateLimitConfig)
    (nowMs : Int) (app : AppState) : Nat → AppState
  | 0 => app
  | k + 1 =>
    (checkRateLimit (rlIter identifier operation cfg nowMs app k)
      identifier operation cfg nowMs false false false).2

/-! ## Helper lemmas -/

theorem lookup_filter_self {α : Type} (s : List (String × α)) (k : String) :
    List.lookup k (s.filter fun p => p.1 != k) = none := by
  induction s with
  | nil => rfl
  | cons a t ih =>
    by_cases h : a.1 = k
    · simp [List.filter_cons, h, ih]
    · simp [List.filter_cons, h, List.lookup, ih, bne_iff_ne,
        (beq_eq_false_iff_ne (α := String)).mpr (Ne.symm h)]

theorem lookup_filter_other {α : Type} (s : List (String × α)) (k k' : String)
    (h : k' ≠ k) :
    List.lookup k' (s.filter fun p => p.1 != k) = List.lookup k' s := by
  induction s with
  | nil => rfl
  | cons a t ih =>
    by_cases ha : a.1 = k
    · subst ha
      simp [List.filter_cons, List.lookup, beq_eq_false_iff_ne.mpr h, ih]
    · simp [List.filter_cons, ha, List.lookup, ih, bne_iff_ne]

theorem lookup_setA_self {α : Type} (s : List (String × α)) (k : String) (v : α) :
    List.lookup k (setA s k v) = some v := by
  simp [setA, List.lookup]

theorem lookup_setA_other {α : Type} (s : List (String × α)) (k k' : String)
    (v : α) (h : k' ≠ k) :
    List.lookup k' (setA s k v) = List.lookup k' s := by
  simp [setA, List.lookup, beq_eq_false_iff_ne.mpr h, lookup_filter_other s k k' h]

theorem lookup_delA_self {α : Type} (s : List (String × α)) (k : String) :
    List.lookup k (delA s k) = none := by
  simp [delA, lookup_filter_self]

theorem setA_setA {α : Type} (s : List (String × α)) (k : String) (v w : α) :
    setA (setA s k v) k w = setA s k w := by
  simp [setA, List.filter_cons, List.filter_filter]

theorem lookupKey_setA_self (s : Store) (k : String) (e : CacheEntry) :
    lookupKey (setA s k e) k = some e :=
  lookup_setA_self s k e

theorem lookupKey_delA_self (s : Store) (k : String) :
    lookupKey (delA s k) k = none :=
  lookup_delA_self s k

theorem memGet_flag (st : RedisService) (key : String) (now : Int) :
    (memGet st key now).2.isRedisAvailable = st.isRedisAvailable := by
  unfold memGet
  split
  · rfl
  · split
    · rfl
    · rfl

/-- `get` with the remote backend available, no failure, live hit. -/
theorem get_avail_hit (st : RedisService) (key v : String) (e now : Int)
    (hb : st.isRedisAvailable = true)
    (hk : lookupKey st.remote key = some ⟨v, e⟩) (hlive : now < e) :
    st.get key now false = (some v, st) := by
  simp [RedisService.get, hb, remoteGet, hk, hlive]

theorem get_avail_none (st : RedisService) (key : String) (now : Int)
    (hb : st.isRedisAvailable = true)
    (hk : lookupKey st.remote key = none) :
    st.get key now false = (none, st) := by
  simp [RedisService.get, hb, remoteGet, hk]

theorem get_avail_expired (st : RedisService) (key v : String) (e now : Int)
    (hb : st.isRedisAvailable = true)
    (hk : lookupKey st.remote key = some ⟨v, e⟩) (hexp : ¬ now < e) :
    st.get key now false = (none, st) := by
  simp [RedisService.get, hb, remoteGet, hk, hexp]

theorem get_unavail_hit (st : RedisService) (key v : String) (e now : Int)
    (hb : st.isRedisAvailable = false)
    (hk : lookupKey st.memoryCache key = some ⟨v, e⟩) (hlive : ¬ now > e) :
    st.get key now false = (some v, st) := by
  simp [RedisService.get, hb, memGet, hk, hlive]

theorem get_unavail_none (st : RedisService) (key : String) (now : Int)
    (hb : st.isRedisAvailable = false)
    (hk : lookupKey st.memoryCache key = none) :
    st.get key now false = (none, st) := by
  simp [RedisService.get, hb, memGet, hk]

theorem get_unavail_expired (st : RedisService) (key v : String) (e now : Int)
    (hb : st.isRedisAvailable = false)
    (hk : lookupKey st.memoryCache key = some ⟨v, e⟩) (hexp : now > e) :
    st.get key now false =
      (none, { st with memoryCache := delA st.memoryCache key }) := by
  simp [RedisService.get, hb, memGet, hk, hexp]

theorem set_avail (st : RedisService) (key v : String) (ttl now : Int)
    (hb : st.isRedisAvailable = true) :
    st.set key v ttl now false =
      { st with remote := setA st.remote key ⟨v, now + ttl * 1000⟩ } := by
  simp [RedisService.set, hb, remoteSetEx]

theorem set_unavail (st : RedisService) (key v : String) (ttl now : Int)
    (hb : st.isRedisAvailable = false) :
    st.set key v ttl now false =
      { st with memoryCache := setA st.memoryCache key ⟨v, now + ttl * 1000⟩ } := by
  simp [RedisService.set, hb]

theorem delete_avail (st : RedisService) (key : String)
    (hb : st.isRedisAvailable = true) :
    st.delete key false =
      { st with remote := delA st.remote key,
                memoryCache := delA st.memoryCache key } := by
  simp [RedisService.delete, hb, remoteDel]

theorem delete_unavail (st : RedisService) (key : String) (f : Bool)
    (hb : st.isRedisAvailable = false) :
    st.delete key f = { st with memoryCache := delA st.memoryCache key } := by
  simp [RedisService.delete, hb]

/-! ## Serialization round-trip -/

theorem stringMk_data (s : String) : String.mk s.data = s := rfl

theorem decStrAux_enc (l : List Char) :
    ∀ (acc rest : List Char),
      decStrAux acc ((l.flatMap fun c => ['\x01', c]) ++ '\x02' :: rest) =
        some (⟨acc.reverse ++ l⟩, rest) := by
  induction l with
  | nil => intro acc rest; simp [decStrAux]
  | cons c cs ih =>
    intro acc rest
    simp only [List.flatMap_cons, List.cons_append, List.append_assoc,
      List.nil_append]
    show decStrAux (c :: acc) _ = _
    rw [ih (c :: acc) rest]
    simp

theorem decStr_encStr (s : String) (rest : List Char) :
    decStr (encStr s ++ rest) = some (s, rest) := by
  have := decStrAux_enc s.data [] rest
  simpa [decStr, encStr, stringMk_data] using this

theorem decNat_rep (n : Nat) (rest : List Char) :
    decNat (List.replicate n '\x03' ++ '\x02' :: rest) = some (n, rest) := by
  induction n with
  | zero => simp [decNat]
  | succ m ih => simp [List.replicate_succ, decNat, ih]

theorem decNat_encNat (n : Nat) (rest : List Char) :
    decNat (encNat n ++ rest) = some (n, rest) := by
  simpa [encNat, List.append_assoc, List.singleton_append] using decNat_rep n rest

theorem decInt_encInt (i : Int) (rest : List Char) :
    decInt (encInt i ++ rest) = some (i, rest) := by
  by_cases h : i < 0
  · simp [encInt, h, decInt, decNat_encNat, abs_of_neg h]
  · have h0 : (0 : Int) ≤ i := not_lt.mp h
    simp [encInt, h, decInt, decNat_encNat, abs_of_nonneg h0]

theorem decOptStr_enc (o : Option String) (rest : List Char) :
    decOptStr (encOptStr o ++ rest) = some (o, rest) := by
  cases o with
  | none => simp [encOptStr, decOptStr]
  | some s => simp [encOptStr, decOptStr, decStr_encStr]

theorem decOptStr_enc_nil (o : Option String) :
    decOptStr (encOptStr o) = some (o, []) := by
  have := decOptStr_enc o []
  simpa using this

theorem sessionParse_stringify (sd : SessionData) :
    sessionParse (sessionStringify sd) = some sd := by
  obtain ⟨u, e, cA, lA, ua, ip⟩ := sd
  simp only [sessionStringify, sessionParse, List.append_assoc]
  simp only [decStr_encStr, decInt_encInt, decOptStr_enc, decOptStr_enc_nil]

theorem sessionStringify_ne_empty (sd : SessionData) :
    sessionStringify sd ≠ "" := by
  intro h
  have hp := sessionParse_stringify sd
  rw [h] at hp
  rw [show sessionParse "" = none from rfl] at hp
  exact Option.noConfusion hp

/-! ## Decimal counter round-trip -/

theorem digitChar_is_digit (n : Nat) (h : n < 10) :
    isDigitChar (Nat.digitChar n) = true ∧ digitVal (Nat.digitChar n) = n := by
  interval_cases n <;> exact ⟨by decide, by decide⟩

theorem natDigitsAux_all (fuel n : Nat) :
    (natDigitsAux fuel n).all isDigitChar = true := by
  induction fuel generalizing n with
  | zero => rfl
  | succ f ih =>
    unfold natDigitsAux
    split
    · next h => simp [(digitChar_is_digit _ h).1]
    · next h =>
      simp [List.all_append, ih,
        (digitChar_is_digit (n % 10) (Nat.mod_lt _ (by norm_num))).1]

theorem natDigitsAux_ne_nil (fuel n : Nat) : natDigitsAux (fuel + 1) n ≠ [] := by
  unfold natDigitsAux
  split <;> simp

theorem natDigitsAux_foldl (fuel : Nat) :
    ∀ n acc, n < fuel →
      (natDigitsAux fuel n).foldl (fun a c => a * 10 + digitVal c) acc =
        acc * 10 ^ (natDigitsAux fuel n).length + n := by
  induction fuel with
  | zero => intro n acc h; omega
  | succ f ih =>
    intro n acc h
    unfold natDigitsAux
    split
    · next h10 =>
      simp [List.foldl, (digitChar_is_digit n h10).2]
    · next h10 =>
      have hdiv : n / 10 < f := by
        have : n / 10 < n := Nat.div_lt_self (by omega) (by norm_num)
        omega
      have hmod := (digitChar_is_digit (n % 10) (Nat.mod_lt _ (by norm_num))).2
      rw [List.foldl_append, ih (n / 10) acc hdiv]
      simp only [List.foldl_cons, List.foldl_nil, hmod, List.length_append,
        List.length_cons, List.length_nil, Nat.zero_add, pow_succ]
      have hqr : n / 10 * 10 + n % 10 = n := by omega
      calc (acc * 10 ^ (natDigitsAux f (n / 10)).length + n / 10) * 10 + n % 10
          = acc * (10 ^ (natDigitsAux f (n / 10)).length * 10) +
              (n / 10 * 10 + n % 10) := by ring
        _ = acc * (10 ^ (natDigitsAux f (n / 10)).length * 10) + n := by rw [hqr]

theorem takeWhile_of_all {p : Char → Bool} (l : List Char) (h : l.all p = true) :
    l.takeWhile p = l := by
  induction l with
  | nil => rfl
  | cons c cs ih =>
    simp only [List.all_cons, Bool.and_eq_true] at h
    simp [List.takeWhile_cons, h.1, ih h.2]

theorem parseIntJS_natToString10 (n : Nat) :
    parseIntJS (natToString10 n) = some n := by
  unfold parseIntJS natToString10
  rw [show (String.mk (natDigitsAux (n + 1) n)).data = natDigitsAux (n + 1) n
    from rfl]
  rw [takeWhile_of_all _ (natDigitsAux_all (n + 1) n)]
  have hne := natDigitsAux_ne_nil n n
  simp only [List.isEmpty_iff, hne, if_false]
  have hf := natDigitsAux_foldl (n + 1) n 0 (by omega)
  simp [hf]

theorem natToString10_ne_empty (n : Nat) : natToString10 n ≠ "" := by
  intro h
  have hd : natDigitsAux (n + 1) n = [] := congrArg String.data h
  exact natDigitsAux_ne_nil n n hd

/-! ## Glob and regex matching -/

theorem plainChar_jsDot (c : Char) (h : plainChar c = true) : jsDot c = true := by
  simp only [jsDot, Bool.and_eq_true, bne_iff_ne, ne_eq]
  refine ⟨⟨⟨?_, ?_⟩, ?_⟩, ?_⟩ <;>
    · rintro rfl
      exact absurd h (by decide)

theorem safeKey_jsDot (k : String) (h : safeKey k = true) :
    k.data.all jsDot = true := by
  unfold safeKey at h
  rw [List.all_eq_true] at h ⊢
  exact fun c hc => plainChar_jsDot c (h c hc)

/-- Whatever the translated-regex matcher accepts when everything the star
swallowed is a plain character, the glob matcher accepts too — restricted to
strings of `jsDot` characters they coincide call for call. -/
theorem glob_imp_rex (fuel : Nat) :
    ∀ (p s : List Char), s.all jsDot = true →
      globMatchAux fuel p s = true → rexMatchAux fuel p s = true := by
  induction fuel with
  | zero =>
    intro p s _ h
    simp [globMatchAux] at h
  | succ f ih =>
    intro p s hs h
    match p with
    | [] =>
      simpa [globMatchAux, rexMatchAux] using h
    | q :: ps =>
      by_cases hq : q = '*'
      · subst hq
        match s with
        | [] =>
          rw [show globMatchAux (f + 1) ('*' :: ps) [] = globMatchAux f ps []
            from rfl] at h
          rw [show rexMatchAux (f + 1) ('*' :: ps) [] = rexMatchAux f ps []
            from rfl]
          exact ih _ _ rfl h
        | c :: ss =>
          have hc : jsDot c = true := by
            rw [List.all_cons, Bool.and_eq_true] at hs
            exact hs.1
          have hss : ss.all jsDot = true := by
            rw [List.all_cons, Bool.and_eq_true] at hs
            exact hs.2
          rw [show globMatchAux (f + 1) ('*' :: ps) (c :: ss) =
              (globMatchAux f ps (c :: ss) || globMatchAux f ('*' :: ps) ss)
            from rfl, Bool.or_eq_true] at h
          rw [show rexMatchAux (f + 1) ('*' :: ps) (c :: ss) =
              (rexMatchAux f ps (c :: ss) ||
                (jsDot c && rexMatchAux f ('*' :: ps) ss))
            from rfl, Bool.or_eq_true]
          rcases h with h | h
          · exact Or.inl (ih _ _ hs h)
          · right
            rw [Bool.and_eq_true]
            exact ⟨hc, ih _ _ hss h⟩
      · match s with
        | [] =>
          simp [globMatchAux, hq] at h
        | c :: ss =>
          simp only [globMatchAux, if_neg hq, Bool.and_eq_true] at h
          simp only [rexMatchAux, if_neg hq, Bool.and_eq_true]
          have hss : ss.all jsDot = true := by
            rw [List.all_cons, Bool.and_eq_true] at hs
            exact hs.2
          exact ⟨h.1, ih _ _ hss h.2⟩

/-- An accepted whole-key match makes the unanchored `RegExp.test` succeed:
the whole key is one of its own substrings. -/
theorem memRegexTest_of_whole (pattern key : String)
    (h : rexMatchAux (pattern.data.length + key.data.length + 1)
      pattern.data key.data = true) :
    memRegexTest pattern key = true := by
  unfold memRegexTest
  rw [List.any_eq_true]
  refine ⟨key.data, (List.mem_tails _ _).mpr (List.suffix_refl _), ?_⟩
  rw [List.any_eq_true]
  exact ⟨key.data, (List.mem_inits _ _).mpr (List.prefix_refl _), h⟩

/-! ## Token service helpers -/

theorem jwtVerify_ok_payload {t : SignedToken} {secret : String} {nowSec : Int}
    {p : JWTPayload} (h : jwtVerify t secret nowSec = .ok p) : p = t.payload := by
  unfold jwtVerify at h
  split at h
  · exact Except.noConfusion h
  · split at h
    · split at h
      · exact Except.noConfusion h
      · injection h with h; exact h.symm
    · injection h with h; exact h.symm

theorem verifyToken_ok_payload {secretOpt : Option String} {t : SignedToken}
    {nowSec : Int} {p : JWTPayload}
    (h : verifyToken secretOpt t nowSec = .ok p) : p = t.payload := by
  unfold verifyToken at h
  split at h
  · exact Except.noConfusion h
  · split at h
    · exact Except.noConfusion h
    · next decoded hj =>
      split at h
      · exact Except.noConfusion h
      · split at h
        · split at h
          · exact Except.noConfusion h
          · injection h with h
            rw [← h]
            exact jwtVerify_ok_payload hj
        · injection h with h
          rw [← h]
          exact jwtVerify_ok_payload hj

theorem getJWTSecret_config_error (secretOpt : Option String)
    (h : ∀ s ∈ secretOpt, s.length < 32) :
    ∃ e, getJWTSecret secretOpt = .error e ∧ e.isConfigError = true := by
  cases secretOpt with
  | none => exact ⟨.configMissing, rfl, rfl⟩
  | some s =>
    have hs : s.length < 32 := h s rfl
    by_cases he : (s == "") = true
    · exact ⟨.configMissing, by simp [getJWTSecret, he], rfl⟩
    · exact ⟨.configShort, by simp [getJWTSecret, he, hs], rfl⟩

/-! ## Claims -/

/-- Claim C4: if an error is thrown during a `checkRateLimit` call, it is not
propagated; the call fails open, returning `allowed: true` with remaining
equal to the full configured `maxRequests`, and leaves all state unchanged. -/
theorem rate_limit_fail_open (app : AppState) (identifier operation : String)
    (cfg : RateLimitConfig) (nowMs : Int) (getFails setFails : Bool) :
    (checkRateLimit app identifier operation cfg nowMs true getFails setFails).1 =
      { allowed := true, remaining := some (cfg.maxRequests : Int),
        resetTime := nowMs.fdiv 1000 + cfg.windowSeconds, error := none } ∧
    (checkRateLimit app identifier operation cfg nowMs true getFails setFails).2 =
      app := by
  constructor
  · rfl
  · rfl

/-- Claim C2: a token whose `type` claim is `refresh` always makes
`authenticateUser` return `{success: false}`, and a token whose `type` claim
is `access` always makes `refreshAccessToken` throw — a token of one type is
never accepted where the other type is required. -/
theorem token_type_separation (secretOpt : Option String)
    (t₁ t₂ : SignedToken) (nowSec : Int)
    (h₁ : t₁.payload.ttype = .refresh) (h₂ : t₂.payload.ttype = .access) :
    (authenticateUser secretOpt t₁ nowSec).success = false ∧
    ∃ e, refreshAccessToken secretOpt t₂ nowSec = .error e := by
  constructor
  · unfold authenticateUser
    cases hv : verifyToken secretOpt t₁ nowSec with
    | error e => rfl
    | ok p =>
      have hp := verifyToken_ok_payload hv
      rw [hp]
      simp [h₁]
  · unfold refreshAccessToken
    cases hv : verifyToken secretOpt t₂ nowSec with
    | error e => exact ⟨e, rfl⟩
    | ok p =>
      have hp := verifyToken_ok_payload hv
      rw [hp]
      refine ⟨.wrongTokenType, ?_⟩
      simp [h₂]

/-- Witness for C2: one concrete refresh token presented to
`authenticateUser`, one concrete access token presented to
`refreshAccessToken`. -/
theorem token_type_separation_witness :
    (authenticateUser (some "0123456789abcdef0123456789abcdef")
        ⟨⟨"u1", "u1@example.com", some 0, some 900, .refresh⟩,
          "0123456789abcdef0123456789abcdef"⟩ 0).success = false ∧
    ∃ e, refreshAccessToken (some "0123456789abcdef0123456789abcdef")
        ⟨⟨"u1", "u1@example.com", some 0, some 900, .access⟩,
          "0123456789abcdef0123456789abcdef"⟩ 0 = .error e :=
  token_type_separation (some "0123456789abcdef0123456789abcdef")
    ⟨⟨"u1", "u1@example.com", some 0, some 900, .refresh⟩,
      "0123456789abcdef0123456789abcdef"⟩
    ⟨⟨"u1", "u1@example.com", some 0, some 900, .access⟩,
      "0123456789abcdef0123456789abcdef"⟩ 0 rfl rfl

/-- Claim C7: with the JWT signing secret absent (or JavaScript-falsy) or
shorter than 32 characters, `createToken` and hence `createTokenPair` throw a
configuration error; no token is produced. -/
theorem short_secret_no_token (secretOpt : Option String)
    (userId email : String) (ty : TokenType) (expiresIn nowSec : Int)
    (h : ∀ s ∈ secretOpt, s.length < 32) :
    (∃ e, createToken secretOpt userId email ty expiresIn nowSec = .error e ∧
      e.isConfigError = true) ∧
    (∃ e, createTokenPair secretOpt userId email nowSec = .error e ∧
      e.isConfigError = true) := by
  obtain ⟨e, he, hc⟩ := getJWTSecret_config_error secretOpt h
  constructor
  · refine ⟨e, ?_, hc⟩
    unfold createToken
    rw [he]
  · refine ⟨e, ?_, hc⟩
    unfold createTokenPair createToken
    rw [he]

/-- Witness for C7 at the concrete too-short secret `"short"`. -/
theorem short_secret_no_token_witness :
    (∃ e, createToken (some "short") "u1" "u1@example.com" .access 900 0 =
      .error e ∧ e.isConfigError = true) ∧
    (∃ e, createTokenPair (some "short") "u1" "u1@example.com" 0 = .error e ∧
      e.isConfigError = true) :=
  short_secret_no_token (some "short") "u1" "u1@example.com" .access 900 0
    (by intro s hs; cases hs; decide)

/-- Claim C6: `set(key, v, ttl)` then `get(key)` before `ttl` seconds have
elapsed returns `v`, and a `get` after `ttl` seconds have elapsed returns
`null` — the state is arbitrary, so this covers the remote-backed path
(availability flag true) and the memory-fallback path (flag false) alike. -/
theorem kv_set_get_roundtrip (st : RedisService) (key v : String)
    (ttl now now1 now2 : Int)
    (hlive : now1 < now + ttl * 1000)
    (hexp : now2 > now + ttl * 1000) :
    ((st.set key v ttl now false).get key now1 false).1 = some v ∧
    ((st.set key v ttl now false).get key now2 false).1 = none := by
  by_cases hb : st.isRedisAvailable = true
  · rw [set_avail st key v ttl now hb]
    set st1 : RedisService :=
      { st with remote := setA st.remote key ⟨v, now + ttl * 1000⟩ } with hst1
    constructor
    · rw [get_avail_hit st1 key v (now + ttl * 1000) now1 hb
        (lookupKey_setA_self st.remote key ⟨v, now + ttl * 1000⟩) hlive]
    · rw [get_avail_expired st1 key v (now + ttl * 1000) now2 hb
        (lookupKey_setA_self st.remote key ⟨v, now + ttl * 1000⟩) (by omega)]
  · have hb' : st.isRedisAvailable = false := by
      simpa using hb
    rw [set_unavail st key v ttl now hb']
    set st1 : RedisService :=
      { st with memoryCache := setA st.memoryCache key ⟨v, now + ttl * 1000⟩ }
      with hst1
    constructor
    · rw [get_unavail_hit st1 key v (now + ttl * 1000) now1 hb'
        (lookupKey_setA_self st.memoryCache key ⟨v, now + ttl * 1000⟩)
        (by omega)]
    · rw [get_unavail_expired st1 key v (now + ttl * 1000) now2 hb'
        (lookupKey_setA_self st.memoryCache key ⟨v, now + ttl * 1000⟩)
        (by omega)]

/-- Witness for C6: one store with a 60-second TTL read back at 59.999s and
at 60.001s. -/
theorem kv_set_get_roundtrip_witness :
    ((RedisService.set ⟨true, [], []⟩ "k" "v" 60 0 false).get "k" 59999
      false).1 = some "v" ∧
    ((RedisService.set ⟨true, [], []⟩ "k" "v" 60 0 false).get "k" 60001
      false).1 = none :=
  kv_set_get_roundtrip ⟨true, [], []⟩ "k" "v" 60 0 59999 60001 (by decide)
    (by decide)

theorem verifyOTP_match {st st' : RedisService} {id v : String} {nowV : Int}
    (hget : st.get (otpKey id) nowV false = (some v, st')) (hv : v ≠ "") :
    verifyOTP st id v nowV false false = (true, st'.delete (otpKey id) false) := by
  unfold verifyOTP
  rw [hget]
  simp [beq_eq_false_iff_ne.mpr hv]

theorem verifyOTP_mismatch {st st' : RedisService} {id v cand : String}
    {nowV : Int}
    (hget : st.get (otpKey id) nowV false = (some v, st')) (hne : v ≠ cand) :
    verifyOTP st id cand nowV false false = (false, st') := by
  unfold verifyOTP
  rw [hget]
  by_cases hv : (v == "") = true
  · simp [hv]
  · simp [hv, beq_eq_false_iff_ne.mpr hne]

theorem verifyOTP_absent {st st' : RedisService} {id cand : String} {nowV : Int}
    (hget : st.get (otpKey id) nowV false = (none, st')) :
    verifyOTP st id cand nowV false false = (false, st') := by
  unfold verifyOTP
  rw [hget]

/-- Claim C1: after `storeOTP(id, code)` (non-falsy code, within the TTL, no
backend failures) `verifyOTP(id, code)` returns true and has deleted the
record before returning, so the same verify on the resulting state returns
false; `verifyOTP(id, cand)` with `cand ≠ code` returns false and changes
nothing; and `verifyOTP` with no stored code returns false.  The state is
arbitrary, covering the remote and memory backends. -/
theorem otp_one_time_use (st : RedisService) (id code cand : String)
    (ttl nowS nowV : Int)
    (hcode : code ≠ "") (hcand : cand ≠ code)
    (hlive : nowV < nowS + ttl * 1000) :
    (verifyOTP (storeOTP st id code ttl nowS false) id code nowV
      false false).1 = true ∧
    (verifyOTP (verifyOTP (storeOTP st id code ttl nowS false) id code nowV
      false false).2 id code nowV false false).1 = false ∧
    lookupKey (verifyOTP (storeOTP st id code ttl nowS false) id code nowV
      false false).2.memoryCache (otpKey id) = none ∧
    (st.isRedisAvailable = true →
      lookupKey (verifyOTP (storeOTP st id code ttl nowS false) id code nowV
        false false).2.remote (otpKey id) = none) ∧
    verifyOTP (storeOTP st id code ttl nowS false) id cand nowV false false =
      (false, storeOTP st id code ttl nowS false) ∧
    (∀ st0 : RedisService, lookupKey st0.remote (otpKey id) = none →
      lookupKey st0.memoryCache (otpKey id) = none →
      (verifyOTP st0 id cand nowV false false).1 = false) := by
  have habsent : ∀ st0 : RedisService, lookupKey st0.remote (otpKey id) = none →
      lookupKey st0.memoryCache (otpKey id) = none →
      (verifyOTP st0 id cand nowV false false).1 = false := by
    intro st0 h1 h2
    by_cases hb0 : st0.isRedisAvailable = true
    · rw [verifyOTP_absent (get_avail_none st0 (otpKey id) nowV hb0 h1)]
    · have hb0' : st0.isRedisAvailable = false := by simpa using hb0
      rw [verifyOTP_absent (get_unavail_none st0 (otpKey id) nowV hb0' h2)]
  by_cases hb : st.isRedisAvailable = true
  · have hset : storeOTP st id code ttl nowS false =
        { st with
          remote := setA st.remote (otpKey id) ⟨code, nowS + ttl * 1000⟩ } :=
      set_avail st (otpKey id) code ttl nowS hb
    rw [hset]
    set st1 : RedisService :=
      { st with
        remote := setA st.remote (otpKey id) ⟨code, nowS + ttl * 1000⟩ }
      with hst1
    have hget1 : st1.get (otpKey id) nowV false = (some code, st1) :=
      get_avail_hit st1 (otpKey id) code (nowS + ttl * 1000) nowV hb
        (lookupKey_setA_self st.remote (otpKey id) ⟨code, nowS + ttl * 1000⟩)
        hlive
    rw [verifyOTP_match hget1 hcode, delete_avail st1 (otpKey id) hb]
    set st2 : RedisService :=
      { st1 with remote := delA st1.remote (otpKey id),
                 memoryCache := delA st1.memoryCache (otpKey id) } with hst2
    refine ⟨rfl, ?_, ?_, ?_, ?_, habsent⟩
    · exact congrArg Prod.fst (verifyOTP_absent (get_avail_none st2 (otpKey id)
        nowV hb (lookupKey_delA_self st1.remote (otpKey id))))
    · exact lookupKey_delA_self st1.memoryCache (otpKey id)
    · intro _
      exact lookupKey_delA_self st1.remote (otpKey id)
    · exact verifyOTP_mismatch hget1 (Ne.symm hcand)
  · have hb' : st.isRedisAvailable = false := by simpa using hb
    have hset : storeOTP st id code ttl nowS false =
        { st with
          memoryCache := setA st.memoryCache (otpKey id) ⟨code, nowS + ttl * 1000⟩ } :=
      set_unavail st (otpKey id) code ttl nowS hb'
    rw [hset]
    set st1 : RedisService :=
      { st with
        memoryCache := setA st.memoryCache (otpKey id) ⟨code, nowS + ttl * 1000⟩ }
      with hst1
    have hget1 : st1.get (otpKey id) nowV false = (some code, st1) :=
      get_unavail_hit st1 (otpKey id) code (nowS + ttl * 1000) nowV hb'
        (lookupKey_setA_self st.memoryCache (otpKey id) ⟨code, nowS + ttl * 1000⟩)
        (by omega)
    rw [verifyOTP_match hget1 hcode, delete_unavail st1 (otpKey id) false hb']
    set st2 : RedisService :=
      { st1 with memoryCache := delA st1.memoryCache (otpKey id) } with hst2
    refine ⟨rfl, ?_, ?_, ?_, ?_, habsent⟩
    · exact congrArg Prod.fst (verifyOTP_absent (get_unavail_none st2
        (otpKey id) nowV hb' (lookupKey_delA_self st1.memoryCache (otpKey id))))
    · exact lookupKey_delA_self st1.memoryCache (otpKey id)
    · intro hcontr
      rw [hb'] at hcontr
      exact Bool.noConfusion hcontr
    · exact verifyOTP_mismatch hget1 (Ne.symm hcand)

/-- Witness for C1: the spec's own scenario `store("a@b.com","123456")`,
wrong code `"000000"`, right code accepted once. -/
theorem otp_one_time_use_witness :
    ("123456" : String) ≠ "" ∧ ("000000" : String) ≠ "123456" ∧
    ((1000 : Int) < 0 + 600 * 1000) ∧
    (verifyOTP (storeOTP ⟨true, [], []⟩ "a@b.com" "123456" 600 0 false)
      "a@b.com" "123456" 1000 false false).1 = true ∧
    verifyOTP (storeOTP ⟨true, [], []⟩ "a@b.com" "123456" 600 0 false)
      "a@b.com" "000000" 1000 false false =
      (false, storeOTP ⟨true, [], []⟩ "a@b.com" "123456" 600 0 false) := by
  have h := otp_one_time_use ⟨true, [], []⟩ "a@b.com" "123456" "000000" 600 0
    1000 (by decide) (by decide) (by decide)
  exact ⟨by decide, by decide, by decide, h.1, h.2.2.2.2.1⟩

theorem validateSession_absent {st st' : RedisService} {sid : String}
    {ttlS nowMs : Int}
    (hget : st.get (sessionKey sid) nowMs false = (none, st')) :
    validateSession st sid ttlS nowMs false false =
      ({ success := false, session := none,
         error := some "Session not found or expired" }, st') := by
  simp only [validateSession]
  rw [hget]

theorem validateSession_hit {st st' : RedisService} {sid : String}
    {sd : SessionData} {ttlS nowMs : Int}
    (hget : st.get (sessionKey sid) nowMs false =
      (some (sessionStringify sd), st')) :
    validateSession st sid ttlS nowMs false false =
      ({ success := true, session := some { sd with lastAccessed := nowMs },
         error := none },
       st'.set (sessionKey sid)
         (sessionStringify { sd with lastAccessed := nowMs }) ttlS nowMs
         false) := by
  simp only [validateSession]
  rw [hget]
  simp [beq_eq_false_iff_ne.mpr (sessionStringify_ne_empty sd),
    sessionParse_stringify]

/-- Claim C8: `validateSession` on an id with no stored record returns
`{success: false}` and changes nothing; on an id whose consulted backend
holds a live stored record it sets the record's `lastAccessed` to the current
time, re-persists it with the full configured session TTL (sliding
expiration), and returns success with the updated session data. -/
theorem validate_session_spec (st : RedisService) (sid : String)
    (sd : SessionData) (exp ttlS nowMs : Int) :
    (lookupKey st.remote (sessionKey sid) = none →
     lookupKey st.memoryCache (sessionKey sid) = none →
     (validateSession st sid ttlS nowMs false false).1 =
       { success := false, session := none,
         error := some "Session not found or expired" } ∧
     (validateSession st sid ttlS nowMs false false).2 = st) ∧
    ((st.isRedisAvailable = true →
        lookupKey st.remote (sessionKey sid) =
          some ⟨sessionStringify sd, exp⟩) →
     (st.isRedisAvailable = false →
        lookupKey st.memoryCache (sessionKey sid) =
          some ⟨sessionStringify sd, exp⟩) →
     nowMs < exp →
     (validateSession st sid ttlS nowMs false false).1 =
       { success := true, session := some { sd with lastAccessed := nowMs },
         error := none } ∧
     (st.isRedisAvailable = true →
       lookupKey (validateSession st sid ttlS nowMs false false).2.remote
         (sessionKey sid) =
         some ⟨sessionStringify { sd with lastAccessed := nowMs },
           nowMs + ttlS * 1000⟩) ∧
     (st.isRedisAvailable = false →
       lookupKey (validateSession st sid ttlS nowMs false false).2.memoryCache
         (sessionKey sid) =
         some ⟨sessionStringify { sd with lastAccessed := nowMs },
           nowMs + ttlS * 1000⟩)) := by
  constructor
  · intro h1 h2
    by_cases hb : st.isRedisAvailable = true
    · rw [validateSession_absent
        (get_avail_none st (sessionKey sid) nowMs hb h1)]
      exact ⟨rfl, rfl⟩
    · have hb' : st.isRedisAvailable = false := by simpa using hb
      rw [validateSession_absent
        (get_unavail_none st (sessionKey sid) nowMs hb' h2)]
      exact ⟨rfl, rfl⟩
  · intro hr hm hlive
    by_cases hb : st.isRedisAvailable = true
    · have hget := get_avail_hit st (sessionKey sid) (sessionStringify sd)
        exp nowMs hb (hr hb) hlive
      rw [validateSession_hit hget]
      refine ⟨rfl, ?_, ?_⟩
      · intro _
        rw [set_avail st (sessionKey sid) _ ttlS nowMs hb]
        exact lookupKey_setA_self st.remote (sessionKey sid) _
      · intro hcontr
        rw [hb] at hcontr
        exact Bool.noConfusion hcontr
    · have hb' : st.isRedisAvailable = false := by simpa using hb
      have hget := get_unavail_hit st (sessionKey sid) (sessionStringify sd)
        exp nowMs hb' (hm hb') (by omega)
      rw [validateSession_hit hget]
      refine ⟨rfl, ?_, ?_⟩
      · intro hcontr
        rw [hb'] at hcontr
        exact Bool.noConfusion hcontr
      · intro _
        rw [set_unavail st (sessionKey sid) _ ttlS nowMs hb']
        exact lookupKey_setA_self st.memoryCache (sessionKey sid) _

/-- Witness for C8: a stored session record is validated at time 10 and comes
back with `lastAccessed = 10`; an unknown id fails. -/
theorem validate_session_spec_witness :
    (validateSession
      ⟨true,
        [("session:abc",
          ⟨sessionStringify ⟨"u1", "e@x", 1, 1, none, none⟩, 5000⟩)], []⟩
      "abc" 7 10 false false).1 =
      { success := true, session := some ⟨"u1", "e@x", 1, 10, none, none⟩,
        error := none } ∧
    (validateSession (⟨true, [], []⟩ : RedisService) "zzz" 7 10 false
      false).1 =
      { success := false, session := none,
        error := some "Session not found or expired" } := by
  constructor
  · exact ((validate_session_spec
      ⟨true,
        [("session:abc",
          ⟨sessionStringify ⟨"u1", "e@x", 1, 1, none, none⟩, 5000⟩)], []⟩
      "abc" ⟨"u1", "e@x", 1, 1, none, none⟩ 5000 7 10).2
      (fun _ => by decide) (fun h => Bool.noConfusion h) (by decide)).1
  · exact ((validate_session_spec (⟨true, [], []⟩ : RedisService) "zzz"
      ⟨"u1", "e@x", 1, 1, none, none⟩ 5000 7 10).1 rfl rfl).1

/-- Counterexample to claim C5 as stated: a failing remote DELETE does NOT
flip the availability flag to false — the `delete` catch block only logs —
and the remote record survives the call. -/
theorem delete_failure_keeps_flag_cex :
    (RedisService.delete ⟨true, [("k", ⟨"v", 100⟩)], []⟩ "k"
      true).isRedisAvailable = true ∧
    lookupKey (RedisService.delete ⟨true, [("k", ⟨"v", 100⟩)], []⟩ "k"
      true).remote "k" = some ⟨"v", 100⟩ := by
  decide

/-- Claim C5 amended: for `get`, `set` and `scanKeys` a remote failure is
caught, flips the connected flag to false and serves the call from the
memory fallback, and every subsequent call keeps using memory because none
of these operations sets the flag back; for `delete` the failure is caught
and only logged — the flag is NOT flipped and the remote record stays — while
the in-memory copy of the key is deleted regardless. -/
theorem kv_failure_fallback_amended (st : RedisService)
    (key v pattern : String) (ttl now : Int)
    (hb : st.isRedisAvailable = true) :
    ((st.get key now true).2.isRedisAvailable = false ∧
     st.get key now true =
       memGet { st with isRedisAvailable := false } key now) ∧
    ((st.set key v ttl now true).isRedisAvailable = false ∧
     lookupKey (st.set key v ttl now true).memoryCache key =
       some ⟨v, now + ttl * 1000⟩) ∧
    ((st.scanKeys pattern now true).2.isRedisAvailable = false ∧
     (st.scanKeys pattern now true).1 =
       memScanKeys st.memoryCache pattern now) ∧
    ((st.delete key true).isRedisAvailable = true ∧
     (st.delete key true).remote = st.remote ∧
     (st.delete key true).memoryCache = delA st.memoryCache key) ∧
    (∀ st' : RedisService, st'.isRedisAvailable = false →
      ∀ f1 f2 f3 f4 : Bool,
      (st'.get key now f1).2.isRedisAvailable = false ∧
      (st'.set key v ttl now f2).isRedisAvailable = false ∧
      (st'.delete key f3).isRedisAvailable = false ∧
      (st'.scanKeys pattern now f4).2.isRedisAvailable = false) := by
  refine ⟨⟨?_, ?_⟩, ⟨?_, ?_⟩, ⟨?_, ?_⟩, ⟨?_, ?_, ?_⟩, ?_⟩
  · simp [RedisService.get, hb, memGet_flag]
  · simp [RedisService.get, hb]
  · simp [RedisService.set, hb]
  · simp only [RedisService.set, hb, if_true]
    exact lookupKey_setA_self st.memoryCache key ⟨v, now + ttl * 1000⟩
  · simp [RedisService.scanKeys, hb]
  · simp [RedisService.scanKeys, hb]
  · simp [RedisService.delete, hb]
  · simp [RedisService.delete, hb]
  · simp [RedisService.delete, hb]
  · intro st' hb' f1 f2 f3 f4
    refine ⟨?_, ?_, ?_, ?_⟩
    · simp [RedisService.get, hb', memGet_flag]
    · cases f2 <;> simp [RedisService.set, hb']
    · simp [RedisService.delete, hb']
    · simp [RedisService.scanKeys, hb']

/-- Witness for C5 (amended): a failing GET on a connected service flips the
flag; a failing DELETE on a connected service does not. -/
theorem kv_failure_fallback_amended_witness :
    (RedisService.get ⟨true, [], [("a", ⟨"y", 60⟩)]⟩ "a" 5
      true).2.isRedisAvailable = false ∧
    (RedisService.delete ⟨true, [], []⟩ "a" true).isRedisAvailable = true :=
  ⟨(kv_failure_fallback_amended ⟨true, [], [("a", ⟨"y", 60⟩)]⟩ "a" "v" "p" 9 5
      rfl).1.1,
   (kv_failure_fallback_amended ⟨true, [], []⟩ "a" "v" "p" 9 5
      rfl).2.2.2.1.1⟩

/-- Counterexample to claim C9 as stated: with one live key `"xsession:abc"`
and pattern `"session:*"`, the memory backend's `scanKeys` returns the key —
the translated regex is unanchored, matching the substring `"session:abc"` —
while remote MATCH semantics (whole-key glob) reject it, so the two backends
do not return the same set of keys. -/
theorem scan_keys_unanchored_cex :
    memScanKeys [("xsession:abc", ⟨"v", 1000⟩)] "session:*" 0 =
      ["xsession:abc"] ∧
    globMatch "session:*" "xsession:abc" = false ∧
    remoteScanKeys [("xsession:abc", ⟨"v", 1000⟩)] "session:*" 0 = [] ∧
    (RedisService.scanKeys ⟨false, [], [("xsession:abc", ⟨"v", 1000⟩)]⟩
      "session:*" 0 false).1 = ["xsession:abc"] := by
  decide

/-- Claim C9 amended: for glob patterns whose non-`*` characters are regex
literals and keys made of plain characters, the memory backend returns a
SUPERSET of what the remote backend's MATCH semantics return on the same
contents: every whole-key glob match is also found by the unanchored regex
test, but the memory path can also return keys where only a proper substring
matches (see the counterexample). -/
theorem scan_keys_superset_amended (s : Store) (pattern : String) (now : Int)
    (_hp : safePattern pattern = true)
    (hk : ∀ p ∈ s, safeKey p.1 = true) :
    ∀ k, k ∈ remoteScanKeys s pattern now → k ∈ memScanKeys s pattern now := by
  intro k hk1
  unfold remoteScanKeys at hk1
  rw [List.mem_map] at hk1
  obtain ⟨p, hpmem, hpk⟩ := hk1
  rw [List.mem_filter] at hpmem
  obtain ⟨hmem, hcond⟩ := hpmem
  rw [Bool.and_eq_true] at hcond
  unfold memScanKeys
  rw [List.mem_map]
  refine ⟨p, ?_, hpk⟩
  rw [List.mem_filter]
  refine ⟨hmem, ?_⟩
  rw [Bool.and_eq_true]
  constructor
  · exact memRegexTest_of_whole pattern p.1
      (glob_imp_rex (pattern.data.length + p.1.data.length + 1) pattern.data
        p.1.data (safeKey_jsDot p.1 (hk p hmem)) hcond.1)
  · rw [decide_eq_true_iff] at hcond ⊢
    omega

/-- Witness for C9 (amended): a whole-key glob match is indeed returned by
the memory path. -/
theorem scan_keys_superset_amended_witness :
    "session:abc" ∈ memScanKeys [("session:abc", ⟨"v", 1000⟩)] "session:*" 0 :=
  scan_keys_superset_amended [("session:abc", ⟨"v", 1000⟩)] "session:*" 0
    (by decide) (by decide) "session:abc" (by decide)

/-! ## Rate limiter step lemmas -/

theorem checkRateLimit_memory (app : AppState) (identifier operation : String)
    (cfg : RateLimitConfig) (nowMs : Int)
    (hb : app.redis.isRedisAvailable = false) :
    checkRateLimit app identifier operation cfg nowMs false false false =
      ((checkMemoryRateLimit app.limiter
          (cfg.keyPref ++ operation ++ ":" ++ identifier) cfg
          (nowMs.fdiv 1000)).1,
       { app with limiter := (checkMemoryRateLimit app.limiter
          (cfg.keyPref ++ operation ++ ":" ++ identifier) cfg
          (nowMs.fdiv 1000)).2 }) := by
  simp [checkRateLimit, RedisService.isConnected, hb]

theorem checkRateLimit_redis (app : AppState) (identifier operation : String)
    (cfg : RateLimitConfig) (nowMs : Int)
    (hb : app.redis.isRedisAvailable = true) :
    checkRateLimit app identifier operation cfg nowMs false false false =
      ((checkRedisRateLimit app.redis
          (cfg.keyPref ++ operation ++ ":" ++ identifier) cfg
          (nowMs.fdiv 1000) nowMs false false).1,
       { app with redis := (checkRedisRateLimit app.redis
          (cfg.keyPref ++ operation ++ ":" ++ identifier) cfg
          (nowMs.fdiv 1000) nowMs false false).2 }) := by
  simp [checkRateLimit, RedisService.isConnected, hb]

theorem checkMemory_fresh (rl : RateLimiterService) (key : String)
    (cfg : RateLimitConfig) (now : Int)
    (hfresh : List.lookup key rl.memoryStore = none ∨
      ∃ e, List.lookup key rl.memoryStore = some e ∧ now > e.resetTime) :
    checkMemoryRateLimit rl key cfg now =
      ({ allowed := true, remaining := some ((cfg.maxRequests : Int) - 1),
         resetTime := now + cfg.windowSeconds, error := none },
       { memoryStore :=
          setA rl.memoryStore key ⟨1, now + cfg.windowSeconds⟩ }) := by
  unfold checkMemoryRateLimit
  rcases hfresh with h | ⟨e, he, hexp⟩
  · rw [h]
  · rw [he]
    simp [hexp]

theorem checkMemory_count_allowed (rl : RateLimiterService) (key : String)
    (cfg : RateLimitConfig) (now : Int) (count : Nat) (rt : Int)
    (hlook : List.lookup key rl.memoryStore = some ⟨count, rt⟩)
    (hin : ¬ now > rt) (hlt : count < cfg.maxRequests) :
    checkMemoryRateLimit rl key cfg now =
      ({ allowed := true,
         remaining := some ((cfg.maxRequests : Int) - (count + 1)),
         resetTime := rt, error := none },
       { memoryStore := setA rl.memoryStore key ⟨count + 1, rt⟩ }) := by
  unfold checkMemoryRateLimit
  rw [hlook]
  simp [hin, show ¬ count ≥ cfg.maxRequests by omega]

theorem checkMemory_count_denied (rl : RateLimiterService) (key : String)
    (cfg : RateLimitConfig) (now : Int) (count : Nat) (rt : Int)
    (hlook : List.lookup key rl.memoryStore = some ⟨count, rt⟩)
    (hin : ¬ now > rt) (hge : count ≥ cfg.maxRequests) :
    checkMemoryRateLimit rl key cfg now =
      ({ allowed := false, remaining := some 0, resetTime := rt,
         error := some "Rate limit exceeded" }, rl) := by
  unfold checkMemoryRateLimit
  rw [hlook]
  simp [hin, hge]

theorem checkRedis_nokey {st st' : RedisService} {key : String}
    (cfg : RateLimitConfig) (nowSec nowMs : Int)
    (hget : st.get key nowMs false = (none, st'))
    (hmax : 0 < cfg.maxRequests) :
    checkRedisRateLimit st key cfg nowSec nowMs false false =
      ({ allowed := true, remaining := some ((cfg.maxRequests : Int) - 1),
         resetTime := nowSec + cfg.windowSeconds, error := none },
       st'.set key (natToString10 1) cfg.windowSeconds nowMs false) := by
  unfold checkRedisRateLimit
  rw [hget]
  simp [show ¬ 0 ≥ cfg.maxRequests by omega]

theorem checkRedis_nokey_denied {st st' : RedisService} {key : String}
    (cfg : RateLimitConfig) (nowSec nowMs : Int)
    (hget : st.get key nowMs false = (none, st'))
    (hmax : cfg.maxRequests = 0) :
    checkRedisRateLimit st key cfg nowSec nowMs false false =
      ({ allowed := false, remaining := some 0,
         resetTime := nowSec + cfg.windowSeconds,
         error := some "Rate limit exceeded" }, st') := by
  unfold checkRedisRateLimit
  rw [hget]
  simp [hmax, getRedisTTL]

theorem checkRedis_count_allowed {st st' : RedisService} {key : String}
    (cfg : RateLimitConfig) (nowSec nowMs : Int) (count : Nat)
    (hget : st.get key nowMs false = (some (natToString10 count), st'))
    (hlt : count < cfg.maxRequests) :
    checkRedisRateLimit st key cfg nowSec nowMs false false =
      ({ allowed := true,
         remaining := some ((cfg.maxRequests : Int) - (count + 1)),
         resetTime := nowSec + cfg.windowSeconds, error := none },
       st'.set key (natToString10 (count + 1)) cfg.windowSeconds nowMs
         false) := by
  unfold checkRedisRateLimit
  rw [hget]
  simp [beq_eq_false_iff_ne.mpr (natToString10_ne_empty count),
    parseIntJS_natToString10, show ¬ count ≥ cfg.maxRequests by omega]

theorem checkRedis_count_denied {st st' : RedisService} {key : String}
    (cfg : RateLimitConfig) (nowSec nowMs : Int) (count : Nat)
    (hget : st.get key nowMs false = (some (natToString10 count), st'))
    (hge : count ≥ cfg.maxRequests) :
    checkRedisRateLimit st key cfg nowSec nowMs false false =
      ({ allowed := false, remaining := some 0,
         resetTime := nowSec + cfg.windowSeconds,
         error := some "Rate limit exceeded" }, st') := by
  unfold checkRedisRateLimit
  rw [hget]
  simp [beq_eq_false_iff_ne.mpr (natToString10_ne_empty count),
    parseIntJS_natToString10, hge, getRedisTTL]

theorem rlIter_redis_state (remote mem : Store) (lm : RateLimiterService)
    (identifier operation : String) (cfg : RateLimitConfig) (nowMs : Int)
    (hkey : lookupKey remote
      (cfg.keyPref ++ operation ++ ":" ++ identifier) = none)
    (hw : 0 < cfg.windowSeconds) :
    ∀ k, k ≤ cfg.maxRequests →
      rlIter identifier operation cfg nowMs ⟨⟨true, remote, mem⟩, lm⟩ k =
        if k = 0 then ⟨⟨true, remote, mem⟩, lm⟩ else
          ⟨⟨true, setA remote (cfg.keyPref ++ operation ++ ":" ++ identifier)
              ⟨natToString10 k, nowMs + cfg.windowSeconds * 1000⟩, mem⟩,
            lm⟩ := by
  intro k
  induction k with
  | zero => intro _; rfl
  | succ j ih =>
    intro hj
    have hj' : j ≤ cfg.maxRequests := by omega
    simp only [rlIter]
    rw [ih hj']
    by_cases hj0 : j = 0
    · subst hj0
      rw [if_pos rfl,
        checkRateLimit_redis ⟨⟨true, remote, mem⟩, lm⟩ identifier operation
          cfg nowMs rfl,
        checkRedis_nokey cfg (nowMs.fdiv 1000) nowMs
          (get_avail_none ⟨true, remote, mem⟩ _ nowMs rfl hkey) (by omega),
        set_avail ⟨true, remote, mem⟩ _ (natToString10 1) cfg.windowSeconds
          nowMs rfl]
      simp
    · rw [if_neg hj0,
        checkRateLimit_redis
          ⟨⟨true, setA remote (cfg.keyPref ++ operation ++ ":" ++ identifier)
              ⟨natToString10 j, nowMs + cfg.windowSeconds * 1000⟩, mem⟩, lm⟩
          identifier operation cfg nowMs rfl,
        checkRedis_count_allowed cfg (nowMs.fdiv 1000) nowMs j
          (get_avail_hit
            ⟨true, setA remote (cfg.keyPref ++ operation ++ ":" ++ identifier)
              ⟨natToString10 j, nowMs + cfg.windowSeconds * 1000⟩, mem⟩
            _ (natToString10 j) (nowMs + cfg.windowSeconds * 1000) nowMs rfl
            (lookupKey_setA_self remote _
              ⟨natToString10 j, nowMs + cfg.windowSeconds * 1000⟩)
            (by omega))
          (by omega),
        set_avail
          ⟨true, setA remote (cfg.keyPref ++ operation ++ ":" ++ identifier)
            ⟨natToString10 j, nowMs + cfg.windowSeconds * 1000⟩, mem⟩
          _ (natToString10 (j + 1)) cfg.windowSeconds nowMs rfl]
      simp [setA_setA]

theorem rlIter_redis_result (remote mem : Store) (lm : RateLimiterService)
    (identifier operation : String) (cfg : RateLimitConfig) (nowMs : Int)
    (hkey : lookupKey remote
      (cfg.keyPref ++ operation ++ ":" ++ identifier) = none)
    (hw : 0 < cfg.windowSeconds) :
    ∀ i, i < cfg.maxRequests →
      (checkRateLimit
        (rlIter identifier operation cfg nowMs ⟨⟨true, remote, mem⟩, lm⟩ i)
        identifier operation cfg nowMs false false false).1 =
      { allowed := true,
        remaining := some ((cfg.maxRequests : Int) - (i + 1)),
        resetTime := nowMs.fdiv 1000 + cfg.windowSeconds, error := none } := by
  intro i hi
  rw [rlIter_redis_state remote mem lm identifier operation cfg nowMs hkey hw
    i (le_of_lt hi)]
  by_cases hi0 : i = 0
  · subst hi0
    rw [if_pos rfl,
      checkRateLimit_redis ⟨⟨true, remote, mem⟩, lm⟩ identifier operation cfg
        nowMs rfl,
      checkRedis_nokey cfg (nowMs.fdiv 1000) nowMs
        (get_avail_none ⟨true, remote, mem⟩ _ nowMs rfl hkey) (by omega)]
    norm_num
  · rw [if_neg hi0,
      checkRateLimit_redis
        ⟨⟨true, setA remote (cfg.keyPref ++ operation ++ ":" ++ identifier)
            ⟨natToString10 i, nowMs + cfg.windowSeconds * 1000⟩, mem⟩, lm⟩
        identifier operation cfg nowMs rfl,
      checkRedis_count_allowed cfg (nowMs.fdiv 1000) nowMs i
        (get_avail_hit
          ⟨true, setA remote (cfg.keyPref ++ operation ++ ":" ++ identifier)
            ⟨natToString10 i, nowMs + cfg.windowSeconds * 1000⟩, mem⟩
          _ (natToString10 i) (nowMs + cfg.windowSeconds * 1000) nowMs rfl
          (lookupKey_setA_self remote _
            ⟨natToString10 i, nowMs + cfg.windowSeconds * 1000⟩)
          (by omega))
        hi]

theorem rlIter_mem_state (rd : RedisService) (store : List (String × MemEntry))
    (identifier operation : String) (cfg : RateLimitConfig) (nowMs : Int)
    (hb : rd.isRedisAvailable = false)
    (hkey : List.lookup (cfg.keyPref ++ operation ++ ":" ++ identifier)
      store = none) :
    ∀ k, k ≤ cfg.maxRequests →
      rlIter identifier operation cfg nowMs ⟨rd, ⟨store⟩⟩ k =
        if k = 0 then ⟨rd, ⟨store⟩⟩ else
          ⟨rd, ⟨setA store (cfg.keyPref ++ operation ++ ":" ++ identifier)
            ⟨k, nowMs.fdiv 1000 + cfg.windowSeconds⟩⟩⟩ := by
  intro k
  induction k with
  | zero => intro _; rfl
  | succ j ih =>
    intro hj
    have hj' : j ≤ cfg.maxRequests := by omega
    simp only [rlIter]
    rw [ih hj']
    by_cases hj0 : j = 0
    · subst hj0
      rw [if_pos rfl,
        checkRateLimit_memory ⟨rd, ⟨store⟩⟩ identifier operation cfg nowMs hb,
        checkMemory_fresh ⟨store⟩ _ cfg (nowMs.fdiv 1000) (Or.inl hkey)]
      simp
    · rw [if_neg hj0,
        checkRateLimit_memory
          ⟨rd, ⟨setA store (cfg.keyPref ++ operation ++ ":" ++ identifier)
            ⟨j, nowMs.fdiv 1000 + cfg.windowSeconds⟩⟩⟩
          identifier operation cfg nowMs hb,
        checkMemory_count_allowed
          ⟨setA store (cfg.keyPref ++ operation ++ ":" ++ identifier)
            ⟨j, nowMs.fdiv 1000 + cfg.windowSeconds⟩⟩
          _ cfg (nowMs.fdiv 1000) j (nowMs.fdiv 1000 + cfg.windowSeconds)
          (lookup_setA_self store _
            ⟨j, nowMs.fdiv 1000 + cfg.windowSeconds⟩)
          (by omega) (by omega)]
      simp [setA_setA]

theorem rlIter_mem_result (rd : RedisService) (store : List (String × MemEntry))
    (identifier operation : String) (cfg : RateLimitConfig) (nowMs : Int)
    (hb : rd.isRedisAvailable = false)
    (hkey : List.lookup (cfg.keyPref ++ operation ++ ":" ++ identifier)
      store = none) :
    ∀ i, i < cfg.maxRequests →
      (checkRateLimit
        (rlIter identifier operation cfg nowMs ⟨rd, ⟨store⟩⟩ i)
        identifier operation cfg nowMs false false false).1.allowed = true ∧
      (checkRateLimit
        (rlIter identifier operation cfg nowMs ⟨rd, ⟨store⟩⟩ i)
        identifier operation cfg nowMs false false false).1.remaining =
        some ((cfg.maxRequests : Int) - (i + 1)) := by
  intro i hi
  rw [rlIter_mem_state rd store identifier operation cfg nowMs hb hkey i
    (le_of_lt hi)]
  by_cases hi0 : i = 0
  · subst hi0
    rw [if_pos rfl,
      checkRateLimit_memory ⟨rd, ⟨store⟩⟩ identifier operation cfg nowMs hb,
      checkMemory_fresh ⟨store⟩ _ cfg (nowMs.fdiv 1000) (Or.inl hkey)]
    norm_num
  · rw [if_neg hi0,
      checkRateLimit_memory
        ⟨rd, ⟨setA store (cfg.keyPref ++ operation ++ ":" ++ identifier)
          ⟨i, nowMs.fdiv 1000 + cfg.windowSeconds⟩⟩⟩
        identifier operation cfg nowMs hb,
      checkMemory_count_allowed
        ⟨setA store (cfg.keyPref ++ operation ++ ":" ++ identifier)
          ⟨i, nowMs.fdiv 1000 + cfg.windowSeconds⟩⟩
        _ cfg (nowMs.fdiv 1000) i (nowMs.fdiv 1000 + cfg.windowSeconds)
        (lookup_setA_self store _
          ⟨i, nowMs.fdiv 1000 + cfg.windowSeconds⟩)
        (by omega) hi]
    exact ⟨rfl, rfl⟩

/-- Claim C3: for a key with no pre-existing counter and a positive window,
the first `maxRequests` back-to-back calls within one window are allowed
(the `maxRequests`-th with `remaining = 0`), the next call is denied with
`allowed = false` and `remaining = 0`, and a call after the window has
expired is allowed again — on the Redis-backed path and the in-memory path
alike (the state is arbitrary; both values of the availability flag are
covered). -/
theorem rate_limit_window_law (app : AppState) (identifier operation : String)
    (cfg : RateLimitConfig) (nowMs nowMs' : Int)
    (hn : 0 < cfg.maxRequests) (hw : 0 < cfg.windowSeconds)
    (hkeyR : lookupKey app.redis.remote
      (cfg.keyPref ++ operation ++ ":" ++ identifier) = none)
    (hkeyM : List.lookup (cfg.keyPref ++ operation ++ ":" ++ identifier)
      app.limiter.memoryStore = none)
    (hexpM : nowMs'.fdiv 1000 > nowMs.fdiv 1000 + cfg.windowSeconds)
    (hexpR : nowMs' ≥ nowMs + cfg.windowSeconds * 1000) :
    (∀ i, i < cfg.maxRequests →
      (checkRateLimit (rlIter identifier operation cfg nowMs app i) identifier
        operation cfg nowMs false false false).1.allowed = true ∧
      (checkRateLimit (rlIter identifier operation cfg nowMs app i) identifier
        operation cfg nowMs false false false).1.remaining =
        some ((cfg.maxRequests : Int) - (i + 1))) ∧
    ((checkRateLimit
        (rlIter identifier operation cfg nowMs app cfg.maxRequests) identifier
        operation cfg nowMs false false false).1.allowed = false ∧
     (checkRateLimit
        (rlIter identifier operation cfg nowMs app cfg.maxRequests) identifier
        operation cfg nowMs false false false).1.remaining = some 0) ∧
    (checkRateLimit
        (rlIter identifier operation cfg nowMs app (cfg.maxRequests + 1))
        identifier operation cfg nowMs' false false false).1.allowed =
      true := by
  obtain ⟨⟨flag, remote, mem⟩, ⟨store⟩⟩ := app
  cases flag with
  | true =>
    have hstate := rlIter_redis_state remote mem ⟨store⟩ identifier operation
      cfg nowMs hkeyR hw cfg.maxRequests le_rfl
    rw [if_neg (by omega : ¬ cfg.maxRequests = 0)] at hstate
    have hdeny := checkRedis_count_denied cfg (nowMs.fdiv 1000) nowMs
      cfg.maxRequests
      (get_avail_hit
        ⟨true, setA remote (cfg.keyPref ++ operation ++ ":" ++ identifier)
          ⟨natToString10 cfg.maxRequests,
            nowMs + cfg.windowSeconds * 1000⟩, mem⟩
        _ (natToString10 cfg.maxRequests) (nowMs + cfg.windowSeconds * 1000)
        nowMs rfl
        (lookupKey_setA_self remote _
          ⟨natToString10 cfg.maxRequests, nowMs + cfg.windowSeconds * 1000⟩)
        (by omega))
      le_rfl
    have hstep : rlIter identifier operation cfg nowMs
        ⟨⟨true, remote, mem⟩, ⟨store⟩⟩ (cfg.maxRequests + 1) =
        ⟨⟨true, setA remote (cfg.keyPref ++ operation ++ ":" ++ identifier)
          ⟨natToString10 cfg.maxRequests,
            nowMs + cfg.windowSeconds * 1000⟩, mem⟩, ⟨store⟩⟩ := by
      simp only [rlIter]
      rw [hstate,
        checkRateLimit_redis
          ⟨⟨true, setA remote (cfg.keyPref ++ operation ++ ":" ++ identifier)
            ⟨natToString10 cfg.maxRequests,
              nowMs + cfg.windowSeconds * 1000⟩, mem⟩, ⟨store⟩⟩
          identifier operation cfg nowMs rfl, hdeny]
    refine ⟨?_, ?_, ?_⟩
    · intro i hi
      rw [rlIter_redis_result remote mem ⟨store⟩ identifier operation cfg
        nowMs hkeyR hw i hi]
      exact ⟨rfl, rfl⟩
    · rw [hstate,
        checkRateLimit_redis
          ⟨⟨true, setA remote (cfg.keyPref ++ operation ++ ":" ++ identifier)
            ⟨natToString10 cfg.maxRequests,
              nowMs + cfg.windowSeconds * 1000⟩, mem⟩, ⟨store⟩⟩
          identifier operation cfg nowMs rfl, hdeny]
      exact ⟨rfl, rfl⟩
    · rw [hstep,
        checkRateLimit_redis
          ⟨⟨true, setA remote (cfg.keyPref ++ operation ++ ":" ++ identifier)
            ⟨natToString10 cfg.maxRequests,
              nowMs + cfg.windowSeconds * 1000⟩, mem⟩, ⟨store⟩⟩
          identifier operation cfg nowMs' rfl,
        checkRedis_nokey cfg (nowMs'.fdiv 1000) nowMs'
          (get_avail_expired
            ⟨true, setA remote (cfg.keyPref ++ operation ++ ":" ++ identifier)
              ⟨natToString10 cfg.maxRequests,
                nowMs + cfg.windowSeconds * 1000⟩, mem⟩
            _ (natToString10 cfg.maxRequests)
            (nowMs + cfg.windowSeconds * 1000) nowMs' rfl
            (lookupKey_setA_self remote _
              ⟨natToString10 cfg.maxRequests,
                nowMs + cfg.windowSeconds * 1000⟩)
            (by omega))
          hn]
  | false =>
    have hstate := rlIter_mem_state ⟨false, remote, mem⟩ store identifier
      operation cfg nowMs rfl hkeyM cfg.maxRequests le_rfl
    rw [if_neg (by omega : ¬ cfg.maxRequests = 0)] at hstate
    have hdeny := checkMemory_count_denied
      ⟨setA store (cfg.keyPref ++ operation ++ ":" ++ identifier)
        ⟨cfg.maxRequests, nowMs.fdiv 1000 + cfg.windowSeconds⟩⟩
      _ cfg (nowMs.fdiv 1000) cfg.maxRequests
      (nowMs.fdiv 1000 + cfg.windowSeconds)
      (lookup_setA_self store _
        ⟨cfg.maxRequests, nowMs.fdiv 1000 + cfg.windowSeconds⟩)
      (by omega) le_rfl
    have hstep : rlIter identifier operation cfg nowMs
        ⟨⟨false, remote, mem⟩, ⟨store⟩⟩ (cfg.maxRequests + 1) =
        ⟨⟨false, remote, mem⟩,
          ⟨setA store (cfg.keyPref ++ operation ++ ":" ++ identifier)
            ⟨cfg.maxRequests, nowMs.fdiv 1000 + cfg.windowSeconds⟩⟩⟩ := by
      simp only [rlIter]
      rw [hstate,
        checkRateLimit_memory
          ⟨⟨false, remote, mem⟩,
            ⟨setA store (cfg.keyPref ++ operation ++ ":" ++ identifier)
              ⟨cfg.maxRequests, nowMs.fdiv 1000 + cfg.windowSeconds⟩⟩⟩
          identifier operation cfg nowMs rfl, hdeny]
    refine ⟨?_, ?_, ?_⟩
    · intro i hi
      exact rlIter_mem_result ⟨false, remote, mem⟩ store identifier operation
        cfg nowMs rfl hkeyM i hi
    · rw [hstate,
        checkRateLimit_memory
          ⟨⟨false, remote, mem⟩,
            ⟨setA store (cfg.keyPref ++ operation ++ ":" ++ identifier)
              ⟨cfg.maxRequests, nowMs.fdiv 1000 + cfg.windowSeconds⟩⟩⟩
          identifier operation cfg nowMs rfl, hdeny]
      exact ⟨rfl, rfl⟩
    · rw [hstep,
        checkRateLimit_memory
          ⟨⟨false, remote, mem⟩,
            ⟨setA store (cfg.keyPref ++ operation ++ ":" ++ identifier)
              ⟨cfg.maxRequests, nowMs.fdiv 1000 + cfg.windowSeconds⟩⟩⟩
          identifier operation cfg nowMs' rfl,
        checkMemory_fresh
          ⟨setA store (cfg.keyPref ++ operation ++ ":" ++ identifier)
            ⟨cfg.maxRequests, nowMs.fdiv 1000 + cfg.windowSeconds⟩⟩
          _ cfg (nowMs'.fdiv 1000)
          (Or.inr ⟨⟨cfg.maxRequests, nowMs.fdiv 1000 + cfg.windowSeconds⟩,
            lookup_setA_self store _
              ⟨cfg.maxRequests, nowMs.fdiv 1000 + cfg.windowSeconds⟩,
            hexpM⟩)]

/-- Witness for C3 with max 2 and a 1-second window, on both backends: the
second call has `remaining = 0`, the third is denied, a call at t = 2.001s is
allowed again. -/
theorem rate_limit_window_law_witness :
    (checkRateLimit (rlIter "u" "op" ⟨2, 1, "rate_limit:"⟩ 0
      ⟨⟨true, [], []⟩, ⟨[]⟩⟩ 1) "u" "op" ⟨2, 1, "rate_limit:"⟩ 0 false false
      false).1.remaining = some 0 ∧
    (checkRateLimit (rlIter "u" "op" ⟨2, 1, "rate_limit:"⟩ 0
      ⟨⟨true, [], []⟩, ⟨[]⟩⟩ 2) "u" "op" ⟨2, 1, "rate_limit:"⟩ 0 false false
      false).1.allowed = false ∧
    (checkRateLimit (rlIter "u" "op" ⟨2, 1, "rate_limit:"⟩ 0
      ⟨⟨true, [], []⟩, ⟨[]⟩⟩ 3) "u" "op" ⟨2, 1, "rate_limit:"⟩ 2001 false
      false false).1.allowed = true ∧
    (checkRateLimit (rlIter "u" "op" ⟨2, 1, "rate_limit:"⟩ 0
      ⟨⟨false, [], []⟩, ⟨[]⟩⟩ 2) "u" "op" ⟨2, 1, "rate_limit:"⟩ 0 false false
      false).1.allowed = false := by
  have hR := rate_limit_window_law ⟨⟨true, [], []⟩, ⟨[]⟩⟩ "u" "op"
    ⟨2, 1, "rate_limit:"⟩ 0 2001 (by decide) (by decide) rfl rfl (by decide)
    (by decide)
  have hM := rate_limit_window_law ⟨⟨false, [], []⟩, ⟨[]⟩⟩ "u" "op"
    ⟨2, 1, "rate_limit:"⟩ 0 2001 (by decide) (by decide) rfl rfl (by decide)
    (by decide)
  refine ⟨?_, hR.2.1.1, hR.2.2, hM.2.1.1⟩
  have h2 := (hR.1 1 (by decide)).2
  rw [h2]
  norm_num

/-- Claim C10: on the in-memory path, a `checkRateLimit` call that finds no
counter for the key (or an expired one) always returns `allowed = true` and
sets the counter to 1, regardless of the configured `maxRequests` — with
`maxRequests = 0` the first request is allowed with `remaining = -1` —
whereas the Redis path with `maxRequests = 0` denies the first request
(count 0 >= max 0). -/
theorem memory_rate_limit_first_call
    (rd rd2 : RedisService) (store : List (String × MemEntry))
    (lm2 : RateLimiterService) (identifier operation : String)
    (cfg : RateLimitConfig) (nowMs : Int)
    (hb : rd.isRedisAvailable = false)
    (hfresh : List.lookup (cfg.keyPref ++ operation ++ ":" ++ identifier)
        store = none ∨
      ∃ e, List.lookup (cfg.keyPref ++ operation ++ ":" ++ identifier)
        store = some e ∧ nowMs.fdiv 1000 > e.resetTime)
    (hb2 : rd2.isRedisAvailable = true)
    (hkey2 : lookupKey rd2.remote
      (cfg.keyPref ++ operation ++ ":" ++ identifier) = none) :
    ((checkRateLimit ⟨rd, ⟨store⟩⟩ identifier operation cfg nowMs false false
        false).1.allowed = true ∧
     (checkRateLimit ⟨rd, ⟨store⟩⟩ identifier operation cfg nowMs false false
        false).1.remaining = some ((cfg.maxRequests : Int) - 1) ∧
     List.lookup (cfg.keyPref ++ operation ++ ":" ++ identifier)
       (checkRateLimit ⟨rd, ⟨store⟩⟩ identifier operation cfg nowMs false
         false false).2.limiter.memoryStore =
       some ⟨1, nowMs.fdiv 1000 + cfg.windowSeconds⟩) ∧
    (cfg.maxRequests = 0 →
     (checkRateLimit ⟨rd, ⟨store⟩⟩ identifier operation cfg nowMs false false
        false).1.remaining = some (-1) ∧
     (checkRateLimit ⟨rd2, lm2⟩ identifier operation cfg nowMs false false
        false).1.allowed = false ∧
     (checkRateLimit ⟨rd2, lm2⟩ identifier operation cfg nowMs false false
        false).1.remaining = some 0) := by
  have hm := checkRateLimit_memory ⟨rd, ⟨store⟩⟩ identifier operation cfg
    nowMs hb
  rw [checkMemory_fresh ⟨store⟩ _ cfg (nowMs.fdiv 1000) hfresh] at hm
  have hden : cfg.maxRequests = 0 →
      checkRateLimit ⟨rd2, lm2⟩ identifier operation cfg nowMs false false
        false =
      ({ allowed := false, remaining := some 0,
         resetTime := nowMs.fdiv 1000 + cfg.windowSeconds,
         error := some "Rate limit exceeded" },
       ⟨rd2, lm2⟩) := by
    intro hmax
    rw [checkRateLimit_redis ⟨rd2, lm2⟩ identifier operation cfg nowMs hb2,
      checkRedis_nokey_denied cfg (nowMs.fdiv 1000) nowMs
        (get_avail_none rd2 _ nowMs hb2 hkey2) hmax]
  constructor
  · rw [hm]
    exact ⟨rfl, rfl, lookup_setA_self store _
      ⟨1, nowMs.fdiv 1000 + cfg.windowSeconds⟩⟩
  · intro hmax
    refine ⟨?_, ?_, ?_⟩
    · rw [hm, hmax]
      norm_num
    · rw [hden hmax]
    · rw [hden hmax]

/-- Witness for C10 with `maxRequests = 0`: memory path allows with
`remaining = -1`, Redis path denies. -/
theorem memory_rate_limit_first_call_witness :
    (checkRateLimit ⟨⟨false, [], []⟩, ⟨[]⟩⟩ "u" "op" ⟨0, 60, "rate_limit:"⟩ 0
      false false false).1.allowed = true ∧
    (checkRateLimit ⟨⟨false, [], []⟩, ⟨[]⟩⟩ "u" "op" ⟨0, 60, "rate_limit:"⟩ 0
      false false false).1.remaining = some (-1) ∧
    (checkRateLimit ⟨⟨true, [], []⟩, ⟨[]⟩⟩ "u" "op" ⟨0, 60, "rate_limit:"⟩ 0
      false false false).1.allowed = false := by
  have h := memory_rate_limit_first_call ⟨false, [], []⟩ ⟨true, [], []⟩ []
    ⟨[]⟩ "u" "op" ⟨0, 60, "rate_limit:"⟩ 0 rfl (Or.inl rfl) rfl rfl
  exact ⟨h.1.1, (h.2 rfl).1, (h.2 rfl).2.1⟩

end RivMvp
